import Mathlib

/-!
Verification development for the planning-scene core of the moveit2 repository
(`moveit_core/planning_scene/src/planning_scene.cpp`).

The scene orchestration code (message processing, attach/detach, collision
dispatch, diff protocol, geometry stream loading) is translated from that
source file.  Collaborator classes that live outside the given sources
(`collision_detection::World`, `moveit::core::RobotState`, the allowed
collision matrix, Eigen isometries, and the `geometric_shapes` text format)
are modelled from the specification at their interface boundary; each such
definition carries a doc comment saying so.

Poses (`Eigen::Isometry3d`) are modelled as an abstract commutative group of
translations: `Int` with addition as composition, `0` as the identity and
negation as inverse.  None of the verified claims depends on rotation
structure, only on which transforms are composed and in which order values
are written.
-/

namespace MoveitScene

/-- Modelled from the spec: an `Eigen::Isometry3d` rigid transform, abstracted
to an additive group (`0` is identity, `+` composition, negation inverse). -/
abbrev Pose := Int

/-- Modelled from the spec: a geometric shape handle (the concrete geometry
lives in the external `geometric_shapes` package). -/
inductive Shape where
  | box (d1 d2 d3 : Int)
  | sphere (r : Int)
  | octree (tree : Nat)
  deriving DecidableEq, Repr

/-- Modelled from the spec: a `std_msgs::ColorRGBA` value (components kept as
integers; only comparisons with zero matter for the verified claims). -/
structure Color where
  r : Int
  g : Int
  b : Int
  a : Int
  deriving DecidableEq, Repr

/-- A `type {db, key}` pair from the object-recognition message. -/
abbrev ObjType := String × String

/-- First-match lookup in an association list (the `std::map::find` of the
id-keyed tables). -/
def lookupA {α : Type} : List (String × α) → String → Option α
  | [], _ => none
  | p :: t, k => if p.1 = k then some p.2 else lookupA t k

/-- Update an association list at a key, appending if the key is absent
(mirrors `std::map::operator[]` assignment). -/
def setAssoc {α : Type} (l : List (String × α)) (k : String) (v : α) :
    List (String × α) :=
  if (lookupA l k).isSome then
    l.map (fun p => if p.1 = k then (k, v) else p)
  else l ++ [(k, v)]

/-- Remove every binding of a key from an association list. -/
def eraseAssoc {α : Type} (l : List (String × α)) (k : String) :
    List (String × α) :=
  l.filter (fun p => !(p.1 == k))

/-- Modelled from the spec: one World object — a pose, an ordered list of
(shape, shape-pose) pairs, and named subframes. -/
structure Obj where
  pose : Pose
  shapes : List Shape
  shape_poses : List Pose
  subframe_poses : List (String × Pose)
  deriving DecidableEq, Repr

/-- Modelled from the spec: the World, an ordered collection of named
objects. -/
abbrev World := List (String × Obj)

namespace World

/-- Modelled from the spec: whether the World holds an object with this id. -/
def hasObject (w : World) (id : String) : Bool :=
  (lookupA w id).isSome

/-- Modelled from the spec: a point-in-time snapshot of an object. -/
def getObject (w : World) (id : String) : Option Obj :=
  lookupA w id

/-- Update the object stored at an id, leaving other entries alone. -/
def updObject (w : World) (id : String) (f : Obj → Obj) : World :=
  w.map (fun p => if p.1 = id then (p.1, f p.2) else p)

/-- Modelled from the spec: `World::addToObject(id, pose, shapes, poses)` —
rejects mismatched list lengths and empty shape lists; creates the object
with the given pose when absent, otherwise appends the geometry keeping the
existing object pose. -/
def addToObject (w : World) (id : String) (pose : Pose) (shapes : List Shape)
    (shape_poses : List Pose) : World :=
  if shapes.length ≠ shape_poses.length then w
  else if shapes.isEmpty then w
  else if w.hasObject id then
    w.updObject id (fun o =>
      { o with shapes := o.shapes ++ shapes,
               shape_poses := o.shape_poses ++ shape_poses })
  else w ++ [(id, ⟨pose, shapes, shape_poses, []⟩)]

/-- Modelled from the spec: `World::addToObject(id, shape, shape_pose)` —
creates the object with identity pose when absent, then appends the single
shape. -/
def addShapeToObject (w : World) (id : String) (s : Shape) (p : Pose) :
    World :=
  if w.hasObject id then
    w.updObject id (fun o =>
      { o with shapes := o.shapes ++ [s], shape_poses := o.shape_poses ++ [p] })
  else w ++ [(id, ⟨0, [s], [p], []⟩)]

/-- Modelled from the spec: `World::removeObject` — reports whether the id was
present and drops it. -/
def removeObject (w : World) (id : String) : Bool × World :=
  (w.hasObject id, eraseAssoc w id)

/-- Modelled from the spec: `World::setObjectPose` — creates an empty object
with the pose when the id is absent, otherwise overwrites the pose. -/
def setObjectPose (w : World) (id : String) (p : Pose) : World :=
  if w.hasObject id then w.updObject id (fun o => { o with pose := p })
  else w ++ [(id, ⟨p, [], [], []⟩)]

/-- Modelled from the spec: `World::moveShapesInObject` — succeeds only when
the object exists and the new pose count matches its shape count. -/
def moveShapesInObject (w : World) (id : String) (ps : List Pose) :
    Bool × World :=
  match w.getObject id with
  | none => (false, w)
  | some o =>
      if ps.length = o.shapes.length then
        (true, w.updObject id (fun o => { o with shape_poses := ps }))
      else (false, w)

/-- Modelled from the spec: `World::setSubframesOfObject` — succeeds only when
the object exists. -/
def setSubframesOfObject (w : World) (id : String)
    (fs : List (String × Pose)) : Bool × World :=
  if w.hasObject id then
    (true, w.updObject id (fun o => { o with subframe_poses := fs }))
  else (false, w)

/-- Modelled from the spec: whether a frame name is an object id or an
`objectid/subframe` name of the World. -/
def knowsTransform (w : World) (f : String) : Bool :=
  w.any (fun p =>
    p.1 == f || p.2.subframe_poses.any (fun q => f == p.1 ++ "/" ++ q.1))

/-- Modelled from the spec: frame lookup in the World — an object id resolves
to the object pose, `objectid/subframe` to the composed subframe pose. -/
def transformOf (w : World) (f : String) : Option Pose :=
  match lookupA w f with
  | some o => some o.pose
  | none =>
      w.findSome? (fun p =>
        p.2.subframe_poses.findSome? (fun q =>
          if f == p.1 ++ "/" ++ q.1 then some (p.2.pose + q.2) else none))

/-- Modelled from the spec: the ids currently stored in the World. -/
def getObjectIds (w : World) : List String :=
  w.map Prod.fst

end World

/-- Modelled from the spec: a body attached to a robot link — owning link,
pose relative to the link, geometry, subframes, touch links and detach
posture (the posture kept as its joint-name list, which is all the scene
code inspects). -/
structure AttachedBody where
  link : String
  pose : Pose
  shapes : List Shape
  shape_poses : List Pose
  subframe_poses : List (String × Pose)
  touch_links : List String
  detach_posture : List String
  deriving DecidableEq, Repr

/-- Modelled from the spec: the robot state at its interface boundary — the
global transform of each link of the robot model, and the attached-body
table. -/
structure RobotState where
  links : List (String × Pose)
  attached : List (String × AttachedBody)
  deriving DecidableEq, Repr

namespace RobotState

/-- Modelled from the spec: `RobotModel::hasLinkModel`. -/
def hasLink (rs : RobotState) (l : String) : Bool :=
  (lookupA rs.links l).isSome

/-- Modelled from the spec: `RobotState::getGlobalLinkTransform` for a known
link (identity for an unknown one; callers check first). -/
def linkTf (rs : RobotState) (l : String) : Pose :=
  (lookupA rs.links l).getD 0

/-- Modelled from the spec: `RobotState::hasAttachedBody`. -/
def hasAttachedBody (rs : RobotState) (id : String) : Bool :=
  (lookupA rs.attached id).isSome

/-- Modelled from the spec: `RobotState::getAttachedBody`. -/
def getAttachedBody (rs : RobotState) (id : String) : Option AttachedBody :=
  lookupA rs.attached id

/-- Modelled from the spec: `RobotState::clearAttachedBody` — reports whether
a body with the id was attached and removes it. -/
def clearAttachedBody (rs : RobotState) (id : String) : Bool × RobotState :=
  (rs.hasAttachedBody id, { rs with attached := eraseAssoc rs.attached id })

/-- Modelled from the spec: `RobotState::attachBody`. -/
def attachBody (rs : RobotState) (id : String) (pose : Pose)
    (shapes : List Shape) (shape_poses : List Pose)
    (touch_links : List String) (link : String)
    (detach_posture : List String)
    (subframe_poses : List (String × Pose)) : RobotState :=
  { rs with attached := rs.attached ++
      [(id, ⟨link, pose, shapes, shape_poses, subframe_poses, touch_links,
             detach_posture⟩)] }

/-- Modelled from the spec: all attached bodies, in attachment order. -/
def getAttachedBodies (rs : RobotState) : List (String × AttachedBody) :=
  rs.attached

/-- Modelled from the spec: the attached bodies on one link. -/
def getAttachedBodiesOnLink (rs : RobotState) (l : String) :
    List (String × AttachedBody) :=
  rs.attached.filter (fun p => p.2.link == l)

/-- Modelled from the spec: `AttachedBody::getGlobalPose` — the owning link's
global transform composed with the body's pose in the link. -/
def globalBodyPose (rs : RobotState) (b : AttachedBody) : Pose :=
  rs.linkTf b.link + b.pose

/-- Modelled from the spec: frames the robot state can resolve — link names
and attached-body names. -/
def stateKnowsFrame (rs : RobotState) (f : String) : Bool :=
  (lookupA rs.links f).isSome || (lookupA rs.attached f).isSome

/-- Modelled from the spec: `RobotState::getFrameTransform` restricted to the
frames `stateKnowsFrame` reports. -/
def frameTf (rs : RobotState) (f : String) : Option Pose :=
  match lookupA rs.links f with
  | some p => some p
  | none =>
      match lookupA rs.attached f with
      | some b => some (rs.globalBodyPose b)
      | none => none

end RobotState

/-- Modelled from the spec: the allowed collision matrix as a sparse table of
pairwise entries. -/
abbrev ACM := List ((String × String) × Bool)

/-- Modelled from the spec: `AllowedCollisionMatrix::removeEntry` for one
name — drops every pair mentioning it. -/
def ACM.removeEntry (acm : ACM) (id : String) : ACM :=
  acm.filter (fun e => !(e.1.1 == id) && !(e.1.2 == id))

/-- The reserved occupancy-map object id (`PlanningScene::OCTOMAP_NS`). -/
def OCTOMAP_NS : String := "<octomap>"

/-- The planning scene state a root (parentless) scene owns: name, frame
tables, World, robot state, ACM, the color/type maps, and the active
collision environment's per-link padding and scaling. -/
structure PlanningScene where
  name : String
  modelFrame : String
  fixedTf : List (String × Pose)
  world : World
  robot : RobotState
  acm : ACM
  objectColors : List (String × Color)
  originalObjectColors : List (String × Color)
  objectTypes : List (String × ObjType)
  padding : List (String × Int)
  scale : List (String × Int)
  deriving DecidableEq, Repr

namespace PlanningScene

/-- Strip the leading slashes of a frame name (the source strips one slash
per recursive call; the fixpoint strips them all). -/
def stripSlashes (f : String) : String :=
  ⟨f.data.dropWhile (· = '/')⟩

/-- Base-class `Transforms::canTransform`: the model frame or a recorded
fixed frame. -/
def baseCanTransform (s : PlanningScene) (f : String) : Bool :=
  f == s.modelFrame || (lookupA s.fixedTf f).isSome

/-- Base-class `Transforms::getTransform` (identity for the model frame and
for unknown frames, which the source only reaches after a check or with an
error log). -/
def baseTransform (s : PlanningScene) (f : String) : Pose :=
  if f == s.modelFrame then 0 else (lookupA s.fixedTf f).getD 0

/-- Translation of `PlanningScene::knowsFrameTransform`: robot-state frames,
then world object/subframe frames, then the fixed-frame table. -/
def knowsFrameTransform (s : PlanningScene) (f : String) : Bool :=
  let f := stripSlashes f
  s.robot.stateKnowsFrame f || s.world.knowsTransform f || s.baseCanTransform f

/-- Translation of `PlanningScene::getFrameTransform`: robot-state frames,
then world frames, then the fixed-frame table. -/
def getFrameTransform (s : PlanningScene) (f : String) : Pose :=
  let f := stripSlashes f
  match s.robot.frameTf f with
  | some t => t
  | none =>
      match s.world.transformOf f with
      | some t => t
      | none => s.baseTransform f

/-- Translation of `PlanningScene::setObjectColor`: rejects an empty id,
stores the color, and records the original color only on the first-ever
assignment for the id. -/
def setObjectColor (s : PlanningScene) (id : String) (c : Color) :
    PlanningScene :=
  if id = "" then s
  else
    let s := { s with objectColors := setAssoc s.objectColors id c }
    if (lookupA s.originalObjectColors id).isSome then s
    else { s with originalObjectColors := s.originalObjectColors ++ [(id, c)] }

/-- Translation of `PlanningScene::getOriginalObjectColor`. -/
def getOriginalObjectColor (s : PlanningScene) (id : String) : Option Color :=
  lookupA s.originalObjectColors id

/-- Translation of `PlanningScene::removeObjectColor` (the original-color
record is deliberately left in place by the source). -/
def removeObjectColor (s : PlanningScene) (id : String) : PlanningScene :=
  { s with objectColors := eraseAssoc s.objectColors id }

/-- Translation of `PlanningScene::hasObjectColor` for a root scene. -/
def hasObjectColor (s : PlanningScene) (id : String) : Bool :=
  (lookupA s.objectColors id).isSome

/-- Translation of `PlanningScene::getObjectColor` for a root scene. -/
def getObjectColor (s : PlanningScene) (id : String) : Color :=
  (lookupA s.objectColors id).getD ⟨0, 0, 0, 0⟩

/-- Translation of `PlanningScene::setObjectType`. -/
def setObjectType (s : PlanningScene) (id : String) (t : ObjType) :
    PlanningScene :=
  { s with objectTypes := setAssoc s.objectTypes id t }

/-- Translation of `PlanningScene::removeObjectType`. -/
def removeObjectType (s : PlanningScene) (id : String) : PlanningScene :=
  { s with objectTypes := eraseAssoc s.objectTypes id }

/-- Translation of `PlanningScene::hasObjectType` for a root scene. -/
def hasObjectType (s : PlanningScene) (id : String) : Bool :=
  (lookupA s.objectTypes id).isSome

/-- Translation of `PlanningScene::getObjectType` for a root scene. -/
def getObjectType (s : PlanningScene) (id : String) : ObjType :=
  (lookupA s.objectTypes id).getD ("", "")

end PlanningScene

/-- The collision-object message operation codes. -/
inductive Op where
  | ADD
  | APPEND
  | REMOVE
  | MOVE
  deriving DecidableEq, Repr

/-- The `moveit_msgs::CollisionObject` mutation message.  The aggregate pose
is `none` when the message pose `isEmpty` (all-zero) and `some p`
otherwise. -/
structure CollisionObjectMsg where
  id : String
  frame_id : String
  pose : Option Pose
  primitives : List Shape
  primitive_poses : List Pose
  meshes : List Shape
  mesh_poses : List Pose
  planes : List Shape
  plane_poses : List Pose
  subframe_names : List String
  subframe_poses : List Pose
  type : ObjType
  operation : Op
  deriving DecidableEq, Repr

/-- The `moveit_msgs::AttachedCollisionObject` message. -/
structure AttachedMsg where
  object : CollisionObjectMsg
  link_name : String
  touch_links : List String
  detach_posture : List String
  deriving DecidableEq, Repr

/-- Conversion of a message pose (`utilities::poseMsgToEigen`); an empty
message pose converts to the identity. -/
def poseOfMsg : Option Pose → Pose
  | none => 0
  | some p => p

/-- Pair each shape of one kind with its pose, defaulting missing trailing
poses to identity (the `treat_shape_vectors` lambda of
`shapesAndPosesFromCollisionObjectMessage`). -/
def pairShapePoses (shapes : List Shape) (poses : List Pose) :
    List (Shape × Pose) :=
  (List.range shapes.length).filterMap (fun i =>
    (shapes.get? i).map (fun sh => (sh, (poses.get? i).getD 0)))

/-- Translation of
`PlanningScene::shapesAndPosesFromCollisionObjectMessage`
(planning_scene.cpp:1800).  Returns `none` on a pose-count overrun, else the
object pose together with the shape list and shape-pose list; with exactly
one shape and an empty message pose the single shape pose is promoted to the
object pose and the shape pose becomes identity. -/
def shapesAndPosesFromCollisionObjectMessage (m : CollisionObjectMsg) :
    Option (Pose × List Shape × List Pose) :=
  if m.primitives.length < m.primitive_poses.length then none
  else if m.meshes.length < m.mesh_poses.length then none
  else if m.planes.length < m.plane_poses.length then none
  else
    let numShapes := m.primitives.length + m.meshes.length + m.planes.length
    let allPairs :=
      pairShapePoses m.primitives m.primitive_poses ++
      pairShapePoses m.meshes m.mesh_poses ++
      pairShapePoses m.planes m.plane_poses
    if numShapes = 1 ∧ m.pose.isNone then
      match allPairs with
      | [(sh, p)] => some (p, [sh], [0])
      | _ => some (0, allPairs.map Prod.fst, allPairs.map Prod.snd)
    else
      some (poseOfMsg m.pose, allPairs.map Prod.fst, allPairs.map Prod.snd)

namespace PlanningScene

/-- Translation of `PlanningScene::processCollisionObjectAdd`
(planning_scene.cpp:1887): fails on an unresolvable frame or on a message
with no shapes (for ADD and APPEND alike); ADD first drops a pre-existing
object with the same id; the object is placed at the header transform
composed with the message pose and the message subframes replace the
object's subframes. -/
def processCollisionObjectAdd (s : PlanningScene) (m : CollisionObjectMsg) :
    Bool × PlanningScene :=
  if ¬s.knowsFrameTransform m.frame_id then (false, s)
  else if m.primitives.isEmpty && m.meshes.isEmpty && m.planes.isEmpty then
    (false, s)
  else
    let s1 :=
      if m.operation = Op.ADD ∧ s.world.hasObject m.id then
        { s with world := (s.world.removeObject m.id).2 }
      else s
    let t := s1.getFrameTransform m.frame_id
    match shapesAndPosesFromCollisionObjectMessage m with
    | none => (false, s1)
    | some (objPose, shs, shPoses) =>
        let s2 := { s1 with world := s1.world.addToObject m.id (t + objPose) shs shPoses }
        let s3 := if m.type ≠ ("", "") then s2.setObjectType m.id m.type else s2
        let subs := (m.subframe_names.zip m.subframe_poses).foldl
          (fun acc q => setAssoc acc q.1 q.2) []
        (true, { s3 with world := (s3.world.setSubframesOfObject m.id subs).2 })

/-- Translation of `PlanningScene::removeAllCollisionObjects`
(planning_scene.cpp:1463): drops every non-reserved World object together
with its color, type and ACM entry. -/
def removeAllCollisionObjects (s : PlanningScene) : PlanningScene :=
  s.world.getObjectIds.foldl
    (fun acc id =>
      if id ≠ OCTOMAP_NS then
        let acc := { acc with world := (acc.world.removeObject id).2 }
        let acc := acc.removeObjectColor id
        let acc := acc.removeObjectType id
        { acc with acm := acc.acm.removeEntry id }
      else acc)
    s

/-- Translation of `PlanningScene::processCollisionObjectRemove`
(planning_scene.cpp:1931): an empty id removes all non-reserved objects; a
named id fails when absent, else removes the object with its color, type and
ACM entry. -/
def processCollisionObjectRemove (s : PlanningScene)
    (m : CollisionObjectMsg) : Bool × PlanningScene :=
  if m.id = "" then (true, s.removeAllCollisionObjects)
  else
    if ¬s.world.hasObject m.id then (false, s)
    else
      let s := { s with world := (s.world.removeObject m.id).2 }
      let s := s.removeObjectColor m.id
      let s := s.removeObjectType m.id
      (true, { s with acm := s.acm.removeEntry m.id })

/-- Translation of `PlanningScene::processCollisionObjectMove`
(planning_scene.cpp:1953): fails when the object is absent; otherwise the
object pose is updated from the message pose first, and only then, when
per-shape poses were supplied, is their count checked against the existing
shape count — a mismatch fails after the pose write. -/
def processCollisionObjectMove (s : PlanningScene) (m : CollisionObjectMsg) :
    Bool × PlanningScene :=
  if s.world.hasObject m.id then
    let t := s.getFrameTransform m.frame_id
    let headerToPose := poseOfMsg m.pose
    let s1 := { s with world := s.world.setObjectPose m.id (t + headerToPose) }
    if ¬m.primitive_poses.isEmpty ∨ ¬m.mesh_poses.isEmpty ∨
        ¬m.plane_poses.isEmpty then
      let shapeSize := m.primitive_poses.length + m.mesh_poses.length +
        m.plane_poses.length
      match s1.world.getObject m.id with
      | none => (false, s1)
      | some o =>
          if shapeSize ≠ o.shape_poses.length then (false, s1)
          else
            let ps := m.primitive_poses ++ m.mesh_poses ++ m.plane_poses
            let (ok, w) := s1.world.moveShapesInObject m.id ps
            if ok then (true, { s1 with world := w }) else (false, s1)
    else (true, s1)
  else (false, s)

/-- Translation of `PlanningScene::processCollisionObjectMsg`
(planning_scene.cpp:1774): rejects the reserved occupancy-map id, then
dispatches on the operation. -/
def processCollisionObjectMsg (s : PlanningScene) (m : CollisionObjectMsg) :
    Bool × PlanningScene :=
  if m.id = OCTOMAP_NS then (false, s)
  else
    match m.operation with
    | Op.ADD => s.processCollisionObjectAdd m
    | Op.APPEND => s.processCollisionObjectAdd m
    | Op.REMOVE => s.processCollisionObjectRemove m
    | Op.MOVE => s.processCollisionObjectMove m

/-- The per-body loop body of the detach branch of
`PlanningScene::processAttachedCollisionObjectMsg`
(planning_scene.cpp:1729): when the World already holds an object with the
body's name the insertion is skipped; otherwise the body is inserted at its
global pose with its shapes and subframes and its original recorded color
(if any) is restored; in both cases the body is cleared from the robot
state. -/
def detachBodyStep (s : PlanningScene) (nb : String × AttachedBody) :
    PlanningScene :=
  let n := nb.1
  let b := nb.2
  let s1 :=
    if s.world.hasObject n then s
    else
      let pose := s.robot.globalBodyPose b
      let w1 := s.world.addToObject n pose b.shapes b.shape_poses
      let w2 := (w1.setSubframesOfObject n b.subframe_poses).2
      let s' := { s with world := w2 }
      match s'.getOriginalObjectColor n with
      | some c => s'.setObjectColor n c
      | none => s'
  { s1 with robot := (s1.robot.clearAttachedBody n).2 }

/-- The candidate-selection step of the detach branch
(planning_scene.cpp:1697): an empty id selects by link (all bodies when the
link is empty or unknown); a named id selects that body when attached,
failing (`none`) on a link-name mismatch. -/
def selectDetachBodies (s : PlanningScene) (m : AttachedMsg) :
    Option (List (String × AttachedBody)) :=
  if m.object.id = "" then
    if m.link_name ≠ "" ∧ s.robot.hasLink m.link_name then
      some (s.robot.getAttachedBodiesOnLink m.link_name)
    else some s.robot.getAttachedBodies
  else
    match s.robot.getAttachedBody m.object.id with
    | none => some []
    | some b =>
        if m.link_name ≠ "" ∧ b.link ≠ m.link_name then none
        else some [(m.object.id, b)]

/-- Translation of `PlanningScene::processAttachedCollisionObjectMsg`
(planning_scene.cpp:1536): for ADD the target link must exist; the reserved
id is rejected; attach pulls geometry from the same-named World object (ADD
with no message geometry) or from the message, removes the World object if
present, and replaces or augments the attachment; detach selects bodies,
hands each back to the World unless the name collides, restores original
colors, always clears the robot state, and succeeds when a body was selected
or the id filter was empty; MOVE is unsupported. -/
def processAttachedCollisionObjectMsg (s : PlanningScene) (m : AttachedMsg) :
    Bool × PlanningScene :=
  if m.object.operation = Op.ADD ∧ ¬s.robot.hasLink m.link_name then
    (false, s)
  else if m.object.id = OCTOMAP_NS then (false, s)
  else if m.object.operation = Op.ADD ∨ m.object.operation = Op.APPEND then
    match lookupA s.robot.links m.link_name with
    | none => (false, s)
    | some linkPose =>
        let objInWorld := s.world.getObject m.object.id
        let info :
            Option (Pose × List Shape × List Pose × List (String × Pose)) :=
          if m.object.operation = Op.ADD ∧ m.object.primitives.isEmpty ∧
              m.object.meshes.isEmpty ∧ m.object.planes.isEmpty then
            match objInWorld with
            | some obj =>
                some (-linkPose + obj.pose, obj.shapes, obj.shape_poses,
                      obj.subframe_poses)
            | none => none
          else
            match shapesAndPosesFromCollisionObjectMessage m.object with
            | none => none
            | some (objPose, shs, shPoses) =>
                let worldToHeader := s.getFrameTransform m.object.frame_id
                let subs := (m.object.subframe_names.zip
                  m.object.subframe_poses).foldl
                  (fun acc q => setAssoc acc q.1 q.2) []
                some (-linkPose + worldToHeader + objPose, shs, shPoses, subs)
        match info with
        | none => (false, s)
        | some (poseInLink, shs, shPoses, subs) =>
            if shs.isEmpty then (false, s)
            else
              let s1 := if m.object.type ≠ ("", "") then
                  s.setObjectType m.object.id m.object.type
                else s
              let s2 := if objInWorld.isSome then
                  { s1 with world := (s1.world.removeObject m.object.id).2 }
                else s1
              if m.object.operation = Op.ADD ∨
                  ¬s2.robot.hasAttachedBody m.object.id then
                let rs := (s2.robot.clearAttachedBody m.object.id).2
                let rs2 := rs.attachBody m.object.id poseInLink shs shPoses
                  m.touch_links m.link_name m.detach_posture subs
                (true, { s2 with robot := rs2 })
              else
                match s2.robot.getAttachedBody m.object.id with
                | none => (false, s2)
                | some ab =>
                    let poseInLink' := if m.object.pose.isNone then ab.pose
                      else poseInLink
                    let shs' := shs ++ ab.shapes
                    let shPoses' := shPoses ++ ab.shape_poses
                    let subs' := subs ++ ab.subframe_poses.filter
                      (fun q => (lookupA subs q.1).isNone)
                    let posture := if m.detach_posture.isEmpty then
                        ab.detach_posture
                      else m.detach_posture
                    let touch := ab.touch_links ++ m.touch_links
                    let rs := (s2.robot.clearAttachedBody m.object.id).2
                    let rs2 := rs.attachBody m.object.id poseInLink' shs'
                      shPoses' touch m.link_name posture subs'
                    (true, { s2 with robot := rs2 })
  else if m.object.operation = Op.REMOVE then
    match s.selectDetachBodies m with
    | none => (false, s)
    | some bodies =>
        let s' := bodies.foldl detachBodyStep s
        if ¬bodies.isEmpty ∨ m.object.id = "" then (true, s')
        else (false, s')
  else (false, s)

end PlanningScene

/-- The `octomap_msgs::Octomap` payload: encoding flag, type id string,
resolution and raw data (bytes modelled as naturals; only emptiness and the
id drive the scene code). -/
structure OctomapData where
  binary : Bool
  id : String
  resolution : Int
  data : List Nat
  deriving DecidableEq, Repr

/-- The stamped `octomap_msgs::msg::Octomap` message (header frame plus
payload). -/
structure OctomapMsg where
  frame_id : String
  octomap : OctomapData
  deriving DecidableEq, Repr

/-- The `octomap_msgs::msg::OctomapWithPose` message. -/
structure OctomapWithPoseMsg where
  frame_id : String
  origin : Pose
  octomap : OctomapData
  deriving DecidableEq, Repr

/-- Modelled from the spec: `createOctomap` builds an occupancy tree from the
payload (the tree itself is external; the handle records the payload
length). -/
def createOctomap (m : OctomapData) : Nat :=
  m.data.length

namespace PlanningScene

/-- Translation of `PlanningScene::processOctomapMsg(Octomap)`
(planning_scene.cpp:1437): the previous occupancy map is removed first; an
empty payload stops there; a payload whose type id is not `OcTree` also
stops there, leaving no occupancy map; otherwise the new map is installed at
the header frame transform (identity for an empty frame). -/
def processOctomapMsg (s : PlanningScene) (m : OctomapMsg) : PlanningScene :=
  let s1 := { s with world := (s.world.removeObject OCTOMAP_NS).2 }
  if m.octomap.data.isEmpty then s1
  else if m.octomap.id ≠ "OcTree" then s1
  else
    let om := createOctomap m.octomap
    let t := if m.frame_id ≠ "" then s1.getFrameTransform m.frame_id else 0
    { s1 with world := s1.world.addShapeToObject OCTOMAP_NS (Shape.octree om) t }

/-- Translation of `PlanningScene::processOctomapMsg(OctomapWithPose)`
(planning_scene.cpp:1478): same shape as the plain overload, with the origin
pose composed onto the header frame transform. -/
def processOctomapWithPoseMsg (s : PlanningScene) (m : OctomapWithPoseMsg) :
    PlanningScene :=
  let s1 := { s with world := (s.world.removeObject OCTOMAP_NS).2 }
  if m.octomap.data.isEmpty then s1
  else if m.octomap.id ≠ "OcTree" then s1
  else
    let om := createOctomap m.octomap
    let t := s1.getFrameTransform m.frame_id
    let p := t + m.origin
    { s1 with world := s1.world.addShapeToObject OCTOMAP_NS (Shape.octree om) p }

end PlanningScene

/-- The fields of `collision_detection::CollisionRequest` the dispatch logic
of `PlanningScene::checkCollision` inspects. -/
structure CollisionRequest where
  pad_environment_collisions : Bool
  pad_self_collisions : Bool
  contacts : Bool
  max_contacts : Nat
  deriving DecidableEq, Repr

/-- The fields of `collision_detection::CollisionResult` the dispatch logic
inspects: the collision flag and the number of recorded contacts. -/
structure CollisionResult where
  collision : Bool
  contacts : Nat
  deriving DecidableEq, Repr

/-- Modelled from the spec: a collision environment at its interface
boundary — the two queries accumulate into a result given the request, the
result so far, the robot state and the ACM. -/
structure CollisionEnvFns where
  checkRobotCollision :
    CollisionRequest → CollisionResult → RobotState → ACM → CollisionResult
  checkSelfCollision :
    CollisionRequest → CollisionResult → RobotState → ACM → CollisionResult

/-- The collision-dispatch view of a scene: the padded and unpadded
environments of the active collision detector, plus the current robot state
and ACM the argument-less overloads use. -/
structure CollisionSceneView where
  cenv : CollisionEnvFns
  cenvUnpadded : CollisionEnvFns
  state : RobotState
  acm : ACM

/-- Translation of the innermost `PlanningScene::checkCollision`
(planning_scene.cpp:436): the environment query runs against the padded or
unpadded environment per `pad_environment_collisions`; an early return fires
when a collision was found and contacts are disabled or the contact budget
is already met; otherwise the self-collision query runs against the
environment selected by `pad_self_collisions`. -/
def checkCollision (cs : CollisionSceneView) (req : CollisionRequest)
    (res : CollisionResult) (rs : RobotState) (acm : ACM) : CollisionResult :=
  let res1 :=
    if req.pad_environment_collisions then
      cs.cenv.checkRobotCollision req res rs acm
    else cs.cenvUnpadded.checkRobotCollision req res rs acm
  if res1.collision ∧ (¬req.contacts ∨ req.max_contacts ≤ res1.contacts) then
    res1
  else
    if req.pad_self_collisions then
      cs.cenv.checkSelfCollision req res1 rs acm
    else cs.cenvUnpadded.checkSelfCollision req res1 rs acm

/-- Translation of the `checkCollisionUnpadded` overload at
planning_scene.cpp:457: it builds a request with
`pad_environment_collisions` forced to `false` but then forwards the
original request (the dead local is kept to mirror the source). -/
def checkCollisionUnpadded1 (cs : CollisionSceneView) (req : CollisionRequest)
    (res : CollisionResult) : CollisionResult :=
  let _new_req := { req with pad_environment_collisions := false }
  checkCollision cs req res cs.state cs.acm

/-- Translation of the `checkCollisionUnpadded` overload at
planning_scene.cpp:465, which does forward the forced request. -/
def checkCollisionUnpadded2 (cs : CollisionSceneView) (req : CollisionRequest)
    (res : CollisionResult) : CollisionResult :=
  let new_req := { req with pad_environment_collisions := false }
  checkCollision cs new_req res cs.state cs.acm

/-- Translation of the `checkCollisionUnpadded` overload at
planning_scene.cpp:473 (const robot state argument). -/
def checkCollisionUnpadded3 (cs : CollisionSceneView) (req : CollisionRequest)
    (res : CollisionResult) (rs : RobotState) : CollisionResult :=
  let new_req := { req with pad_environment_collisions := false }
  checkCollision cs new_req res rs cs.acm

/-- Translation of the `checkCollisionUnpadded` overload at
planning_scene.cpp:482 (mutable robot state argument; the lazy
collision-body transform refresh is state-internal and not modelled). -/
def checkCollisionUnpadded4 (cs : CollisionSceneView) (req : CollisionRequest)
    (res : CollisionResult) (rs : RobotState) : CollisionResult :=
  let new_req := { req with pad_environment_collisions := false }
  checkCollision cs new_req res rs cs.acm

/-- Translation of the `checkCollisionUnpadded` overload at
planning_scene.cpp:491 (mutable robot state and explicit ACM). -/
def checkCollisionUnpadded5 (cs : CollisionSceneView) (req : CollisionRequest)
    (res : CollisionResult) (rs : RobotState) (acm : ACM) : CollisionResult :=
  let new_req := { req with pad_environment_collisions := false }
  checkCollision cs new_req res rs acm

/-- Translation of the `checkCollisionUnpadded` overload at
planning_scene.cpp:502 (const robot state and explicit ACM): like the
overload at line 457 it builds the forced request and then forwards the
original one. -/
def checkCollisionUnpadded6 (cs : CollisionSceneView) (req : CollisionRequest)
    (res : CollisionResult) (rs : RobotState) (acm : ACM) : CollisionResult :=
  let _new_req := { req with pad_environment_collisions := false }
  checkCollision cs req res rs acm

/-- The environment-query half of the collision dispatch, as the spec words
it: the padded or unpadded environment per the request flag. -/
def envQuery (cs : CollisionSceneView) (req : CollisionRequest)
    (res : CollisionResult) (rs : RobotState) (acm : ACM) : CollisionResult :=
  if req.pad_environment_collisions then
    cs.cenv.checkRobotCollision req res rs acm
  else cs.cenvUnpadded.checkRobotCollision req res rs acm

/-- The self-collision half of the dispatch, selected by
`pad_self_collisions`. -/
def selfQuery (cs : CollisionSceneView) (req : CollisionRequest)
    (r : CollisionResult) (rs : RobotState) (acm : ACM) : CollisionResult :=
  if req.pad_self_collisions then cs.cenv.checkSelfCollision req r rs acm
  else cs.cenvUnpadded.checkSelfCollision req r rs acm

/-- The World diff-log action bitmask values
(`collision_detection::World::Action`). -/
def actionCREATE : Nat := 1

/-- The DESTROY action value of the World diff log. -/
def actionDESTROY : Nat := 2

/-- A forked (diff) scene: the parent it reads through, the copy-on-write
optional fields, its own copy-constructed World with the diff log, and the
padding and scale of its collision detector (copied from the parent at fork
time). -/
structure DiffScene where
  parent : PlanningScene
  transformsOpt : Option (List (String × Pose))
  robotOpt : Option RobotState
  acmOpt : Option ACM
  colorsOpt : Option (List (String × Color))
  typesOpt : Option (List (String × ObjType))
  world : World
  worldDiff : List (String × Nat)
  padding : List (String × Int)
  scale : List (String × Int)
  deriving DecidableEq, Repr

namespace DiffScene

/-- Translation of `PlanningScene::diff` / the parent constructor
(planning_scene.cpp:203): every optional field starts empty, the World is
copy-constructed from the parent with a fresh (empty) diff log, and the
collision detector's padding and scale are copied from the parent. -/
def fork (p : PlanningScene) : DiffScene :=
  { parent := p
    transformsOpt := none
    robotOpt := none
    acmOpt := none
    colorsOpt := none
    typesOpt := none
    world := p.world
    worldDiff := []
    padding := p.padding
    scale := p.scale }

/-- Translation of `PlanningScene::hasObjectColor` for a one-level diff
scene: the local table first, then the parent. -/
def hasObjectColor (d : DiffScene) (id : String) : Bool :=
  (match d.colorsOpt with
   | some cs => (lookupA cs id).isSome
   | none => false) ||
  (lookupA d.parent.objectColors id).isSome

/-- Translation of `PlanningScene::getObjectColor` for a one-level diff
scene. -/
def getObjectColor (d : DiffScene) (id : String) : Color :=
  match d.colorsOpt with
  | some cs =>
      match lookupA cs id with
      | some c => c
      | none => (lookupA d.parent.objectColors id).getD ⟨0, 0, 0, 0⟩
  | none => (lookupA d.parent.objectColors id).getD ⟨0, 0, 0, 0⟩

/-- Translation of `PlanningScene::hasObjectType` for a one-level diff
scene. -/
def hasObjectType (d : DiffScene) (id : String) : Bool :=
  (match d.typesOpt with
   | some ts => (lookupA ts id).isSome
   | none => false) ||
  (lookupA d.parent.objectTypes id).isSome

/-- Translation of `PlanningScene::getObjectType` for a one-level diff
scene. -/
def getObjectType (d : DiffScene) (id : String) : ObjType :=
  match d.typesOpt with
  | some ts =>
      match lookupA ts id with
      | some t => t
      | none => (lookupA d.parent.objectTypes id).getD ("", "")
  | none => (lookupA d.parent.objectTypes id).getD ("", "")

/-- One world-diff replay step of `PlanningScene::pushDiffs`
(planning_scene.cpp:368): a DESTROY entry removes the object, its color and
type, and its ACM entry unless the id is attached on the target's robot
state; any other entry re-fetches the current object from the local World
and overwrites it (with subframes) in the target, propagating color and
type. -/
def pushDiffStep (d : DiffScene) (t : PlanningScene) (it : String × Nat) :
    PlanningScene :=
  if it.2 = actionDESTROY then
    let t := { t with world := (t.world.removeObject it.1).2 }
    let t := t.removeObjectColor it.1
    let t := t.removeObjectType it.1
    if ¬t.robot.hasAttachedBody it.1 then
      { t with acm := t.acm.removeEntry it.1 }
    else t
  else
    match d.world.getObject it.1 with
    | none => t
    | some obj =>
        let t := { t with world := (t.world.removeObject it.1).2 }
        let w1 := t.world.addToObject it.1 obj.pose obj.shapes obj.shape_poses
        let t := { t with world := w1 }
        let t := if d.hasObjectColor it.1 then
            t.setObjectColor it.1 (d.getObjectColor it.1)
          else t
        let t := if d.hasObjectType it.1 then
            t.setObjectType it.1 (d.getObjectType it.1)
          else t
        { t with world := (t.world.setSubframesOfObject it.1
            obj.subframe_poses).2 }

/-- Translation of `PlanningScene::pushDiffs` (planning_scene.cpp:338):
locally overridden transforms, robot state (with attached-object color/type
propagation) and ACM overwrite the target's; the local padding and scale are
always copied onto the target's active environment; then the world diff log
is replayed. -/
def pushDiffs (d : DiffScene) (t : PlanningScene) : PlanningScene :=
  let t := match d.transformsOpt with
    | some tf => { t with fixedTf := tf }
    | none => t
  let t := match d.robotOpt with
    | some rs =>
        let t := { t with robot := rs }
        rs.attached.foldl
          (fun (acc : PlanningScene) (p : String × AttachedBody) =>
            let acc := if d.hasObjectType p.1 then
                acc.setObjectType p.1 (d.getObjectType p.1)
              else acc
            if d.hasObjectColor p.1 then
              acc.setObjectColor p.1 (d.getObjectColor p.1)
            else acc)
          t
    | none => t
  let t := match d.acmOpt with
    | some a => { t with acm := a }
    | none => t
  let t := { t with padding := d.padding, scale := d.scale }
  d.worldDiff.foldl (pushDiffStep d) t

end DiffScene

/-- A whitespace-delimited token of the scene-geometry text format: a token
that parses as a number, or any other word.  The stream is modelled at this
token level; C++ stream lexing of doubles is abstracted into the `num`
constructor. -/
inductive Word where
  | num (n : Int)
  | str (s : String)
  deriving DecidableEq, Repr

/-- The text a token reads back as through `operator>>` into a string. -/
def wordStr : Word → String
  | Word.num n => toString n
  | Word.str s => s

/-- The text of a whole line (tokens joined by single spaces), as
`std::getline` would deliver it after trimming. -/
def joinWords : List Word → String
  | [] => ""
  | [w] => wordStr w
  | w :: ws => wordStr w ++ " " ++ joinWords ws

/-- An input stream over lines of tokens with a fail flag: `failed` models
the C++ stream fail state, after which every extraction fails (the source
never clears it). -/
structure SStream where
  toks : List (List Word)
  failed : Bool
  deriving DecidableEq, Repr

/-- Keep a line only when it still has tokens (a fully consumed line is
dropped; the next whitespace-skipping extraction would skip it anyway). -/
def consLine (ws : List Word) (rest : List (List Word)) :
    List (List Word) :=
  if ws.isEmpty then rest else ws :: rest

/-- Extract the next token, skipping blank lines. -/
def readWordAux : List (List Word) → Option (Word × List (List Word))
  | [] => none
  | [] :: rest => readWordAux rest
  | (w :: ws) :: rest => some (w, consLine ws rest)

namespace SStream

/-- Whitespace-skipping token extraction (`in >> word`): fails and marks the
stream failed at end of input. -/
def readWord (s : SStream) : Option Word × SStream :=
  if s.failed then (none, s)
  else
    match readWordAux s.toks with
    | none => (none, ⟨[], true⟩)
    | some (w, rest) => (some w, ⟨rest, false⟩)

/-- Line extraction (`std::getline`): yields the remainder of the current
line; fails at end of input. -/
def readLine (s : SStream) : Option String × SStream :=
  if s.failed then (none, s)
  else
    match s.toks with
    | [] => (none, ⟨[], true⟩)
    | l :: rest => (some (joinWords l), ⟨rest, false⟩)

/-- Numeric extraction (`in >> double`): fails, marking the stream, when the
next token is not numeric. -/
def readIntTok (s : SStream) : Option Int × SStream :=
  match s.readWord with
  | (some (Word.num n), s') => (some n, s')
  | (some (Word.str _), s') => (none, ⟨s'.toks, true⟩)
  | (none, s') => (none, s')

/-- Unsigned extraction (`in >> unsigned`): additionally fails on a negative
value. -/
def readNatTok (s : SStream) : Option Nat × SStream :=
  match s.readIntTok with
  | (some n, s') =>
      if n < 0 then (none, ⟨s'.toks, true⟩) else (some n.toNat, s')
  | (none, s') => (none, s')

/-- Extract a fixed number of numeric tokens. -/
def readInts : Nat → SStream → Option (List Int) × SStream
  | 0, s => (some [], s)
  | n + 1, s =>
      match s.readIntTok with
      | (none, s') => (none, s')
      | (some x, s') =>
          match readInts n s' with
          | (none, s2) => (none, s2)
          | (some xs, s2) => (some (x :: xs), s2)

/-- Translation of `utilities::readPoseFromText` (planning_scene.cpp:85):
seven numeric reads; the resulting abstract pose is their sum (the concrete
isometry construction is external). -/
def readPose (s : SStream) : Option Pose × SStream :=
  match s.readInts 7 with
  | (some xs, s') => (some xs.sum, s')
  | (none, s') => (none, s')

/-- The four color components read in the shape loop
(planning_scene.cpp:1164). -/
def readColor (s : SStream) : Option Color × SStream :=
  match s.readInts 4 with
  | (some [r, g, b, a], s') => (some ⟨r, g, b, a⟩, s')
  | (some _, s') => (none, ⟨s'.toks, true⟩)
  | (none, s') => (none, s')

/-- Modelled from the spec: `shapes::constructShapeFromText` from the
external `geometric_shapes` package — a shape-type word followed by its
dimensions; the `box` and `sphere` kinds are modelled, anything else is a
parse failure (a null shape). -/
def readShape (s : SStream) : Option Shape × SStream :=
  match s.readWord with
  | (some (Word.str "box"), s') =>
      match s'.readInts 3 with
      | (some [a, b, c], s2) => (some (Shape.box a b c), s2)
      | (some _, s2) => (none, ⟨s2.toks, true⟩)
      | (none, s2) => (none, s2)
  | (some (Word.str "sphere"), s') =>
      match s'.readIntTok with
      | (some r, s2) => (some (Shape.sphere r), s2)
      | (none, s2) => (none, s2)
  | (some _, s') => (none, ⟨s'.toks, true⟩)
  | (none, s') => (none, s')

end SStream

/-- One shape insertion of the loader's shape loop
(planning_scene.cpp:1169): the shape is appended to the object and the color
is stored when any component is positive. -/
def applyShapeLoad (sc : PlanningScene) (id : String) (sh : Shape) (p : Pose)
    (c : Color) : PlanningScene :=
  let sc := { sc with world := sc.world.addShapeToObject id sh p }
  if c.r > 0 ∨ c.g > 0 ∨ c.b > 0 ∨ c.a > 0 then sc.setObjectColor id c
  else sc

/-- The shape loop of `loadGeometryFromStream` (planning_scene.cpp:1150):
runs the announced number of iterations while the stream is good; a failed
shape, pose or color read aborts the whole load (first component `false`),
keeping the insertions already made. -/
def parseShapes (id : String) :
    Nat → PlanningScene → SStream → Bool × PlanningScene × SStream
  | 0, sc, st => (true, sc, st)
  | n + 1, sc, st =>
      if st.failed then (true, sc, st)
      else
        match st.readShape with
        | (none, st') => (false, sc, st')
        | (some sh, st') =>
            match st'.readPose with
            | (none, st2) => (false, sc, st2)
            | (some p, st2) =>
                match st2.readColor with
                | (none, st3) => (false, sc, st3)
                | (some c, st3) =>
                    parseShapes id n (applyShapeLoad sc id sh p c) st3

/-- The subframe loop of `loadGeometryFromStream`
(planning_scene.cpp:1190): reads name-pose pairs into a map; a failed pose
read aborts the load. -/
def parseSubframes :
    Nat → List (String × Pose) → SStream →
    Bool × List (String × Pose) × SStream
  | 0, acc, st => (true, acc, st)
  | n + 1, acc, st =>
      if st.failed then (true, acc, st)
      else
        let r := st.readWord
        let nm := match r.1 with
          | some w => wordStr w
          | none => ""
        match r.2.readPose with
        | (none, st2) => (false, acc, st2)
        | (some p, st2) => parseSubframes n (setAssoc acc nm p) st2

/-- One iteration of the main loader loop (planning_scene.cpp:1117): read a
marker; `*` parses one object record (writing the object pose into the World
before reading any shape, then inserting shapes one by one, then subframes),
`.` ends the load successfully, anything else (or a read failure) aborts.
The first component is `none` to continue looping, `some b` to return. -/
def parseRecord (sc : PlanningScene) (offset : Pose) (usesNew : Bool)
    (st : SStream) : Option Bool × PlanningScene × SStream :=
  match st.readWord with
  | (none, st') => (some false, sc, st')
  | (some w, st') =>
      if wordStr w = "*" then
        match st'.readLine with
        | (none, st2) => (some false, sc, st2)
        | (some object_id, st2) =>
            let pr := if usesNew then st2.readPose else (some 0, st2)
            match pr with
            | (none, st3) => (some false, sc, st3)
            | (some p, st3) =>
                let pose := offset + p
                let sc := { sc with world := sc.world.setObjectPose object_id pose }
                let cr := st3.readNatTok
                let cnt := cr.1.getD 0
                match parseShapes object_id cnt sc cr.2 with
                | (false, sc2, st5) => (some false, sc2, st5)
                | (true, sc2, st5) =>
                    if usesNew then
                      let sr := st5.readNatTok
                      let scnt := sr.1.getD 0
                      match parseSubframes scnt [] sr.2 with
                      | (false, _, st7) => (some false, sc2, st7)
                      | (true, subs, st7) =>
                          let w2 := (sc2.world.setSubframesOfObject object_id subs).2
                          (none, { sc2 with world := w2 }, st7)
                    else (none, sc2, st5)
      else if wordStr w = "." then (some true, sc, st')
      else (some false, sc, st')

/-- The main loader loop, driven by a line-count fuel (each continuing
iteration consumes at least one full line, so the fuel
`loadGeometryFromStream` supplies never runs out). -/
def loadLoopF : Nat → Pose → Bool → SStream → PlanningScene →
    Bool × PlanningScene
  | 0, _, _, _, sc => (false, sc)
  | fuel + 1, offset, usesNew, st, sc =>
      match parseRecord sc offset usesNew st with
      | (some b, sc', _) => (b, sc')
      | (none, sc', st') => loadLoopF fuel offset usesNew st' sc'

/-- Whether a line starts an object record (its first token is the `*`
marker). -/
def starLine : List Word → Bool
  | Word.str s :: _ => s == "*"
  | _ => false

/-- The format-detection pass of `loadGeometryFromStream`
(planning_scene.cpp:1103): scan for the first `*` line; the following line
uses spaces (at least two tokens) exactly when the new pose-first format is
in use.  Reaching the end of input (no `*` line, or nothing after it) leaves
the stream failed — the rewind cannot clear the fail bit — so the main loop
then aborts immediately (second component `true`). -/
def detectFormat : List (List Word) → Bool × Bool
  | [] => (false, true)
  | l :: rest =>
      if starLine l then
        match rest with
        | [] => (false, true)
        | nxt :: _ => (decide (2 ≤ nxt.length), false)
      else detectFormat rest

/-- Translation of `PlanningScene::loadGeometryFromStream`
(planning_scene.cpp:1092): an empty stream fails; otherwise the scene name
is overwritten from the first line before anything is validated, the format
is detected, and the record loop runs — with no rollback of any state
already written when a later record fails. -/
def PlanningScene.loadGeometryFromStream (sc : PlanningScene) (offset : Pose)
    (toks : List (List Word)) : Bool × PlanningScene :=
  match toks with
  | [] => (false, sc)
  | nameL :: rest =>
      let sc := { sc with name := joinWords nameL }
      let df := detectFormat rest
      if df.2 then (false, sc)
      else loadLoopF (rest.length + 1) offset df.1 ⟨rest, false⟩ sc

/-- A well-formed shape block of the current text format, used to build
concrete streams: a box with three dimensions, a shape pose and a color
line. -/
structure GoodShape where
  d1 : Int
  d2 : Int
  d3 : Int
  pose : Int
  color : Color
  deriving DecidableEq, Repr

/-- The token lines `saveGeometryToStream` would emit for one shape block. -/
def encodeShape (g : GoodShape) : List (List Word) :=
  [[Word.str "box"],
   [Word.num g.d1, Word.num g.d2, Word.num g.d3],
   [Word.num g.pose, Word.num 0, Word.num 0],
   [Word.num 0, Word.num 0, Word.num 0, Word.num 0],
   [Word.num g.color.r, Word.num g.color.g, Word.num g.color.b,
    Word.num g.color.a]]

/-- A well-formed object record of the current (pose-first) format. -/
structure GoodRec where
  id : String
  pose : Int
  shapes : List GoodShape
  subframes : List (String × Int)
  deriving DecidableEq, Repr

/-- The token line for one subframe entry. -/
def encodeSubframe (q : String × Int) : List Word :=
  [Word.str q.1, Word.num q.2, Word.num 0, Word.num 0, Word.num 0,
   Word.num 0, Word.num 0, Word.num 0]

/-- The token lines for one whole object record. -/
def encodeRec (r : GoodRec) : List (List Word) :=
  [[Word.str "*", Word.str r.id],
   [Word.num r.pose, Word.num 0, Word.num 0],
   [Word.num 0, Word.num 0, Word.num 0, Word.num 0],
   [Word.num (r.shapes.length : Int)]] ++
  (r.shapes.map encodeShape).flatten ++
  [[Word.num (r.subframes.length : Int)]] ++
  r.subframes.map encodeSubframe

/-- The net scene effect of loading one shape block. -/
def applyGoodShape (id : String) (sc : PlanningScene) (g : GoodShape) :
    PlanningScene :=
  applyShapeLoad sc id (Shape.box g.d1 g.d2 g.d3) g.pose g.color

/-- The net scene effect of loading one whole object record: the object pose
is written first, then each shape is inserted with its color, then the
subframes are set. -/
def applyRec (offset : Pose) (r : GoodRec) (sc : PlanningScene) :
    PlanningScene :=
  let sc := { sc with world := sc.world.setObjectPose r.id (offset + r.pose) }
  let sc := r.shapes.foldl (applyGoodShape r.id) sc
  let subs := r.subframes.foldl
    (fun acc q => setAssoc acc q.1 (q.2 : Pose)) []
  { sc with world := (sc.world.setSubframesOfObject r.id subs).2 }

/-- The disjointness invariant of spec sections 3 and 8: an id present in the
World is not simultaneously an attached body on the robot state. -/
def disjointIds (s : PlanningScene) : Prop :=
  ∀ id, s.world.hasObject id = true → s.robot.hasAttachedBody id = false

/-- A concrete root scene used by the witnesses: one robot link `l`, an
empty world. -/
def sceneEx : PlanningScene :=
  { name := "scene"
    modelFrame := "world"
    fixedTf := []
    world := []
    robot := { links := [("l", 2)], attached := [] }
    acm := []
    objectColors := []
    originalObjectColors := []
    objectTypes := []
    padding := []
    scale := [] }

/-- A template collision-object message used by the witnesses. -/
def msgEx : CollisionObjectMsg :=
  { id := "x"
    frame_id := "world"
    pose := none
    primitives := []
    primitive_poses := []
    meshes := []
    mesh_poses := []
    planes := []
    plane_poses := []
    subframe_names := []
    subframe_poses := []
    type := ("", "")
    operation := Op.ADD }

/-- A concrete scene holding one world object `box` at pose 5 with a single
shape. -/
def sceneBox : PlanningScene :=
  { sceneEx with world := [("box", ⟨5, [Shape.sphere 1], [0], []⟩)] }

/-- A MOVE message for `box` whose two supplied shape poses mismatch the
object's single shape. -/
def msgMoveMismatch : CollisionObjectMsg :=
  { msgEx with id := "box", operation := Op.MOVE, pose := some 1,
               primitive_poses := [0, 0] }

/-- An octomap payload with data but a wrong type id. -/
def omsgBad : OctomapMsg :=
  { frame_id := "", octomap := ⟨false, "bogus", 1, [7]⟩ }

/-- A stamped octomap payload with data but a wrong type id. -/
def opmsgBad : OctomapWithPoseMsg :=
  { frame_id := "world", origin := 3, octomap := ⟨true, "wrong", 1, [1, 2]⟩ }

/-- An environment whose robot-collision query reports a hit and whose
self-collision query leaves the result unchanged. -/
def envHit : CollisionEnvFns :=
  { checkRobotCollision := fun _ _ _ _ => ⟨true, 0⟩
    checkSelfCollision := fun _ r _ _ => r }

/-- An environment whose robot-collision query reports no hit. -/
def envMiss : CollisionEnvFns :=
  { checkRobotCollision := fun _ _ _ _ => ⟨false, 0⟩
    checkSelfCollision := fun _ r _ _ => r }

/-- A dispatch view whose padded environment reports a hit and whose
unpadded environment does not — the two diverge, making the choice of
environment observable. -/
def csDemo : CollisionSceneView :=
  { cenv := envHit, cenvUnpadded := envMiss, state := ⟨[], []⟩, acm := [] }

/-- A request that asks for padded environment collisions. -/
def reqPadded : CollisionRequest :=
  { pad_environment_collisions := true, pad_self_collisions := false,
    contacts := false, max_contacts := 0 }

/-- The empty collision result a query starts from. -/
def res0 : CollisionResult := ⟨false, 0⟩

/-- An attach message carrying its own geometry for id `x` on link `l`. -/
def amsgAttachX : AttachedMsg :=
  { object := { msgEx with primitives := [Shape.sphere 1],
                           primitive_poses := [0], pose := some 0 }
    link_name := "l"
    touch_links := []
    detach_posture := [] }

/-- A plain ADD collision-object message for the same id `x`. -/
def msgAddX : CollisionObjectMsg :=
  { msgEx with primitives := [Shape.sphere 2], primitive_poses := [0],
               pose := some 0 }

/-- A scene with one body `x` attached to link `l` and a recorded original
color for it. -/
def sceneAttached : PlanningScene :=
  { sceneEx with
      robot := { links := [("l", 2)]
                 attached := [("x", ⟨"l", 1, [Shape.sphere 1], [0],
                   [("s", 4)], [], []⟩)] }
      originalObjectColors := [("x", ⟨1, 2, 3, 4⟩)] }

/-- A detach-everything message (REMOVE with empty id and link). -/
def amsgDetachAll : AttachedMsg :=
  { object := { msgEx with id := "", operation := Op.REMOVE }
    link_name := ""
    touch_links := []
    detach_posture := [] }

/-- A concrete well-formed geometry record for the loader witnesses. -/
def recW : GoodRec :=
  { id := "obj1", pose := 3
    shapes := [{ d1 := 1, d2 := 1, d3 := 1, pose := 2, color := ⟨1, 0, 0, 1⟩ }]
    subframes := [("tip", 5)] }

section Lemmas

/-- Lookup after erasing a key: the erased key reads as absent, every other
key is untouched. -/
theorem lookupA_eraseAssoc {α : Type} (l : List (String × α)) (k k' : String) :
    lookupA (eraseAssoc l k) k' = if k' = k then none else lookupA l k' := by
  induction l with
  | nil => simp [eraseAssoc, lookupA]
  | cons p t ih =>
      simp only [eraseAssoc, List.filter_cons] at ih ⊢
      by_cases hak : p.1 = k
      · have hb : (!(p.1 == k)) = false := by simp [hak]
        rw [hb]
        simp only [Bool.false_eq_true, if_false]
        rw [ih]
        by_cases hk : k' = k
        · simp [hk]
        · have hpk : ¬p.1 = k' := by
            rw [hak]; exact fun h => hk h.symm
          simp [hk, lookupA, hpk]
      · have hb : (!(p.1 == k)) = true := by simp [hak]
        rw [hb]
        simp only [if_true]
        by_cases hpk : p.1 = k'
        · have hk : ¬k' = k := by
            rw [← hpk]; exact fun h => hak (hpk ▸ h)
          simp [lookupA, hpk, hk]
        · simp [lookupA, hpk, ih]

/-- Lookup distributes over append, preferring the first list. -/
theorem lookupA_append {α : Type} (l₁ l₂ : List (String × α)) (k : String) :
    lookupA (l₁ ++ l₂) k =
      match lookupA l₁ k with
      | some v => some v
      | none => lookupA l₂ k := by
  induction l₁ with
  | nil => simp [lookupA]
  | cons p t ih =>
      by_cases hk : p.1 = k <;> simp [lookupA, hk, ih]

/-- Lookup after the in-place map that `setAssoc` performs on a present
key. -/
theorem lookupA_mapSet {α : Type} (l : List (String × α)) (k k' : String)
    (v : α) :
    lookupA (l.map (fun p => if p.1 = k then (k, v) else p)) k' =
      if k' = k then (lookupA l k).map (fun _ => v) else lookupA l k' := by
  induction l with
  | nil => simp [lookupA]
  | cons p t ih =>
      by_cases hak : p.1 = k
      · by_cases hk : k' = k
        · subst hk; simp [lookupA, hak, ih]
        · have hpk : ¬p.1 = k' := by
            rw [hak]; exact fun h => hk h.symm
          have hk2 : ¬k = k' := fun h => hk h.symm
          simp [lookupA, hak, hk, hpk, hk2, ih]
      · by_cases hk : k' = k
        · subst hk; simp [lookupA, hak, ih, Ne.symm hak]
        · by_cases hpk : p.1 = k' <;> simp [lookupA, hak, hk, hpk, ih]

/-- Lookup after `setAssoc`: the written key reads the new value, the others
are untouched. -/
theorem lookupA_setAssoc {α : Type} (l : List (String × α)) (k k' : String)
    (v : α) :
    lookupA (setAssoc l k v) k' = if k' = k then some v else lookupA l k' := by
  unfold setAssoc
  by_cases hil : (lookupA l k).isSome
  · rw [if_pos hil, lookupA_mapSet]
    by_cases hk : k' = k
    · obtain ⟨w, hw⟩ := Option.isSome_iff_exists.mp hil
      simp [hk, hw]
    · simp [hk]
  · rw [if_neg hil, lookupA_append]
    by_cases hk : k' = k
    · subst hk
      simp only [Bool.not_eq_true, Option.not_isSome,
        Option.isNone_iff_eq_none] at hil
      simp [hil, lookupA]
    · have hk2 : ¬k = k' := fun h => hk h.symm
      cases h : lookupA l k' <;> simp [lookupA, hk, hk2, h]

/-- The keys of `updObject` are the keys of the original world; only the
value at the updated key changes. -/
theorem lookupA_updObject (w : World) (id k : String) (f : Obj → Obj) :
    lookupA (w.updObject id f) k =
      if k = id then (lookupA w k).map f else lookupA w k := by
  induction w with
  | nil => simp [World.updObject, lookupA]
  | cons p t ih =>
      simp only [World.updObject, List.map_cons] at ih ⊢
      by_cases hai : p.1 = id
      · by_cases hk : k = id
        · subst hk; simp [lookupA, hai, ih]
        · have hpk : ¬p.1 = k := by
            rw [hai]; exact fun h => hk h.symm
          have hk2 : ¬id = k := fun h => hk h.symm
          simp [lookupA, hai, hk, hpk, hk2, ih]
      · by_cases hk : k = id
        · subst hk; simp [lookupA, hai, ih, Ne.symm hai]
        · by_cases hpk : p.1 = k <;> simp [lookupA, hai, hk, hpk, ih]

/-- Removing an object makes `hasObject` false for it. -/
theorem hasObject_removeObject_self (w : World) (id : String) :
    (w.removeObject id).2.hasObject id = false := by
  simp [World.removeObject, World.hasObject, lookupA_eraseAssoc]

/-- The pose write of `setObjectPose` on a present object changes only the
pose. -/
theorem getObject_setObjectPose_present (w : World) (id : String) (p : Pose)
    (o : Obj) (h : w.getObject id = some o) :
    (w.setObjectPose id p).getObject id = some { o with pose := p } := by
  have hh : w.hasObject id = true := by
    simp [World.hasObject, World.getObject] at h ⊢
    simp [h]
  simp only [World.setObjectPose, hh, if_true, World.getObject,
    lookupA_updObject, if_pos rfl]
  simp only [World.getObject] at h
  simp [h]

/-- `hasObject` after removal: the removed id is absent, others untouched. -/
theorem hasObject_erase (w : World) (id k : String) :
    World.hasObject (eraseAssoc w id) k =
      if k = id then false else w.hasObject k := by
  by_cases hk : k = id <;> simp [World.hasObject, lookupA_eraseAssoc, hk]

/-- `hasAttachedBody` after clearing a body: the cleared id is absent,
others untouched. -/
theorem hasAttached_clear (rs : RobotState) (n k : String) :
    (rs.clearAttachedBody n).2.hasAttachedBody k =
      if k = n then false else rs.hasAttachedBody k := by
  by_cases hk : k = n <;>
    simp [RobotState.hasAttachedBody, RobotState.clearAttachedBody,
      lookupA_eraseAssoc, hk]

/-- Setting subframes never changes which ids exist. -/
theorem hasObject_setSubframes (w : World) (n : String)
    (f : List (String × Pose)) (k : String) :
    ((w.setSubframesOfObject n f).2).hasObject k = w.hasObject k := by
  unfold World.setSubframesOfObject World.hasObject
  by_cases hn : (lookupA w n).isSome
  · by_cases hk : k = n <;> simp [hn, lookupA_updObject, hk]
  · simp [hn]

/-- `addToObject` touches no id other than its own. -/
theorem hasObject_addToObject_other (w : World) (id : String) (p : Pose)
    (shs : List Shape) (ps : List Pose) (k : String) (h : k ≠ id) :
    (w.addToObject id p shs ps).hasObject k = w.hasObject k := by
  unfold World.addToObject World.hasObject
  by_cases h1 : shs.length ≠ ps.length
  · simp [h1]
  · by_cases h2 : shs.isEmpty
    · simp [h1, h2]
    · by_cases h3 : (lookupA w id).isSome
      · simp [h1, h2, h3, lookupA_updObject, h]
      · have hik : ¬id = k := fun hh => h hh.symm
        simp only [h1, h2, h3, if_false, Bool.false_eq_true, ite_false]
        simp [h3, lookupA_append, lookupA]
        cases hl : lookupA w k <;> simp [hik]

/-- `addToObject` on an absent id with well-formed geometry creates exactly
the new object. -/
theorem getObject_addToObject_new (w : World) (id : String) (p : Pose)
    (shs : List Shape) (ps : List Pose) (h : w.hasObject id = false)
    (hlen : shs.length = ps.length) (hne : shs ≠ []) :
    (w.addToObject id p shs ps).getObject id = some ⟨p, shs, ps, []⟩ := by
  have h2 : shs.isEmpty = false := by
    cases shs with
    | nil => exact absurd rfl hne
    | cons a t => simp [List.isEmpty]
  have hn : lookupA w id = none := by
    simp only [World.hasObject] at h
    cases hl : lookupA w id
    · rfl
    · rw [hl] at h; simp at h
  unfold World.addToObject World.hasObject
  simp [hlen, h2, hn, World.getObject, lookupA_append, lookupA]

/-- Setting the subframes of a present object rewrites exactly that
field. -/
theorem getObject_setSubframes_self (w : World) (id : String)
    (f : List (String × Pose)) (o : Obj) (h : w.getObject id = some o) :
    ((w.setSubframesOfObject id f).2).getObject id =
      some { o with subframe_poses := f } := by
  have hh : w.hasObject id = true := by
    simp only [World.hasObject, World.getObject] at h ⊢
    simp [h]
  simp only [World.setSubframesOfObject, hh, if_true, World.getObject,
    lookupA_updObject, if_pos rfl]
  simp only [World.getObject] at h
  simp [h]

/-- `setObjectColor` leaves the world untouched. -/
theorem world_setObjectColor (s : PlanningScene) (id : String) (c : Color) :
    (s.setObjectColor id c).world = s.world := by
  unfold PlanningScene.setObjectColor
  by_cases h : id = ""
  · simp [h]
  · by_cases h2 : (lookupA s.originalObjectColors id).isSome <;>
      simp [h, h2]

/-- `setObjectColor` leaves the robot state untouched. -/
theorem robot_setObjectColor (s : PlanningScene) (id : String) (c : Color) :
    (s.setObjectColor id c).robot = s.robot := by
  unfold PlanningScene.setObjectColor
  by_cases h : id = ""
  · simp [h]
  · by_cases h2 : (lookupA s.originalObjectColors id).isSome <;>
      simp [h, h2]

/-- `setObjectColor` on a non-empty id stores the color. -/
theorem lookupA_colors_setObjectColor (s : PlanningScene) (id : String)
    (c : Color) (h : id ≠ "") :
    lookupA (s.setObjectColor id c).objectColors id = some c := by
  unfold PlanningScene.setObjectColor
  rw [if_neg h]
  by_cases h2 : (lookupA s.originalObjectColors id).isSome <;>
    simp [h2, lookupA_setAssoc]

/-- A cleared-then-attached robot state keeps every other id's attachment
status; combined with an absent world id this preserves disjointness. -/
theorem disjoint_attach_final (s2 : PlanningScene) (id : String) (pose : Pose)
    (shs : List Shape) (ps : List Pose) (touch : List String) (link : String)
    (posture : List String) (subs : List (String × Pose))
    (hd : disjointIds s2) (hw : s2.world.hasObject id = false) :
    disjointIds { s2 with robot :=
      ((s2.robot.clearAttachedBody id).2.attachBody id pose shs ps touch link
        posture subs) } := by
  intro k hk
  simp only [] at hk
  by_cases hki : k = id
  · subst hki
    rw [hw] at hk
    exact absurd hk (by simp)
  · have hold := hd k hk
    have hnone : lookupA s2.robot.attached k = none := by
      simp only [RobotState.hasAttachedBody] at hold
      cases hl : lookupA s2.robot.attached k
      · rfl
      · rw [hl] at hold; simp at hold
    have hik : ¬id = k := fun hh => hki hh.symm
    simp [RobotState.hasAttachedBody, RobotState.attachBody,
      RobotState.clearAttachedBody, lookupA_append, lookupA_eraseAssoc, hki,
      hnone, lookupA, hik]

/-- `setObjectType` preserves disjointness (it only touches the type
table). -/
theorem disjoint_setObjectType (s : PlanningScene) (id : String)
    (t : ObjType) (h : disjointIds s) : disjointIds (s.setObjectType id t) :=
  fun k hk => h k hk

/-- The color-restoration step of detach leaves the robot state alone. -/
theorem robot_colorRestore (s' : PlanningScene) (n : String) :
    (match s'.getOriginalObjectColor n with
      | some c => s'.setObjectColor n c
      | none => s').robot = s'.robot := by
  cases s'.getOriginalObjectColor n <;> simp [robot_setObjectColor]

/-- The color-restoration step of detach leaves the world alone. -/
theorem world_colorRestore (s' : PlanningScene) (n : String) :
    (match s'.getOriginalObjectColor n with
      | some c => s'.setObjectColor n c
      | none => s').world = s'.world := by
  cases s'.getOriginalObjectColor n <;> simp [world_setObjectColor]

/-- The detach loop body preserves disjointness. -/
theorem disjoint_detachBodyStep (s : PlanningScene)
    (nb : String × AttachedBody) (h : disjointIds s) :
    disjointIds (s.detachBodyStep nb) := by
  unfold PlanningScene.detachBodyStep
  dsimp only
  by_cases hw : s.world.hasObject nb.1
  · rw [if_pos hw]
    intro k hk
    simp only [] at hk
    rw [hasAttached_clear]
    by_cases hk1 : k = nb.1 <;> simp [hk1, h k hk]
  · rw [if_neg (by simp [hw])]
    intro k hk
    simp only [] at hk
    rw [world_colorRestore] at hk
    simp only [] at hk
    rw [hasAttached_clear, robot_colorRestore]
    simp only []
    by_cases hk1 : k = nb.1
    · simp [hk1]
    · simp only [hk1, if_false, ite_false]
      refine h k ?_
      rw [hasObject_setSubframes, hasObject_addToObject_other _ _ _ _ _ _ hk1]
        at hk
      exact hk

/-- The whole detach loop preserves disjointness. -/
theorem disjoint_detach_foldl (bodies : List (String × AttachedBody)) :
    ∀ (s : PlanningScene), disjointIds s →
      disjointIds (bodies.foldl PlanningScene.detachBodyStep s) := by
  induction bodies with
  | nil => intro s h; exact h
  | cons b t ih =>
      intro s h
      exact ih _ (disjoint_detachBodyStep s b h)

end Lemmas

/-- C7: a collision-object message or attached-collision-object message whose
object id equals the reserved occupancy-map sentinel fails immediately and
leaves the scene unchanged, for every operation. -/
theorem c7_reserved_id_rejected :
    (∀ (s : PlanningScene) (m : CollisionObjectMsg), m.id = OCTOMAP_NS →
      s.processCollisionObjectMsg m = (false, s)) ∧
    (∀ (s : PlanningScene) (m : AttachedMsg), m.object.id = OCTOMAP_NS →
      s.processAttachedCollisionObjectMsg m = (false, s)) := by
  constructor
  · intro s m h
    simp [PlanningScene.processCollisionObjectMsg, h]
  · intro s m h
    by_cases hA : m.object.operation = Op.ADD ∧ ¬s.robot.hasLink m.link_name
    · simp [PlanningScene.processAttachedCollisionObjectMsg, hA]
    · simp [PlanningScene.processAttachedCollisionObjectMsg, hA, h]

/-- Witness for C7 at concrete inputs. -/
theorem c7_witness :
    sceneEx.processCollisionObjectMsg { msgEx with id := "<octomap>" } =
      (false, sceneEx) ∧
    sceneEx.processAttachedCollisionObjectMsg
      { amsgAttachX with object := { amsgAttachX.object with id := "<octomap>" } } =
      (false, sceneEx) :=
  ⟨c7_reserved_id_rejected.1 sceneEx _ rfl,
   c7_reserved_id_rejected.2 sceneEx _ rfl⟩

/-- C9: an octomap message with non-empty payload whose type id is not
`OcTree` removes the previous occupancy map and installs nothing, for both
message overloads: the scene ends with no occupancy map at all. -/
theorem c9_bad_octomap_type_clears_map :
    (∀ (s : PlanningScene) (m : OctomapMsg), m.octomap.data ≠ [] →
      m.octomap.id ≠ "OcTree" →
      s.processOctomapMsg m =
        { s with world := (s.world.removeObject OCTOMAP_NS).2 } ∧
      (s.processOctomapMsg m).world.hasObject OCTOMAP_NS = false) ∧
    (∀ (s : PlanningScene) (m : OctomapWithPoseMsg), m.octomap.data ≠ [] →
      m.octomap.id ≠ "OcTree" →
      s.processOctomapWithPoseMsg m =
        { s with world := (s.world.removeObject OCTOMAP_NS).2 } ∧
      (s.processOctomapWithPoseMsg m).world.hasObject OCTOMAP_NS = false) := by
  constructor
  · intro s m h1 h2
    have hd : m.octomap.data.isEmpty = false := by
      cases hm : m.octomap.data with
      | nil => exact absurd hm h1
      | cons a t => simp [List.isEmpty]
    constructor
    · simp [PlanningScene.processOctomapMsg, hd, h2]
    · simp [PlanningScene.processOctomapMsg, hd, h2,
        hasObject_removeObject_self]
  · intro s m h1 h2
    have hd : m.octomap.data.isEmpty = false := by
      cases hm : m.octomap.data with
      | nil => exact absurd hm h1
      | cons a t => simp [List.isEmpty]
    constructor
    · simp [PlanningScene.processOctomapWithPoseMsg, hd, h2]
    · simp [PlanningScene.processOctomapWithPoseMsg, hd, h2,
        hasObject_removeObject_self]

/-- Witness for C9 at concrete inputs. -/
theorem c9_witness :
    (sceneBox.processOctomapMsg omsgBad =
      { sceneBox with world := (sceneBox.world.removeObject OCTOMAP_NS).2 } ∧
     (sceneBox.processOctomapMsg omsgBad).world.hasObject OCTOMAP_NS =
       false) ∧
    (sceneBox.processOctomapWithPoseMsg opmsgBad =
      { sceneBox with world := (sceneBox.world.removeObject OCTOMAP_NS).2 } ∧
     (sceneBox.processOctomapWithPoseMsg opmsgBad).world.hasObject OCTOMAP_NS =
       false) :=
  ⟨c9_bad_octomap_type_clears_map.1 sceneBox omsgBad (by decide) (by decide),
   c9_bad_octomap_type_clears_map.2 sceneBox opmsgBad (by decide) (by decide)⟩

/-- C3 counterexample: an APPEND message with a resolvable frame, a
non-reserved id and zero shapes is claimed to succeed as a no-op pose
update, but the code rejects it. -/
theorem c3_counterexample :
    (sceneEx.processCollisionObjectMsg
      { msgEx with operation := Op.APPEND }).1 = false ∧
    (sceneEx.processCollisionObjectMsg
      { msgEx with operation := Op.APPEND }).2 = sceneEx := by
  constructor <;> decide

/-- C3 as amended: a collision-object message with zero shapes fails and
leaves the scene unchanged for ADD and APPEND alike — the no-shape check of
`processCollisionObjectAdd` does not distinguish the two operations. -/
theorem c3_no_shape_add_append_fail (s : PlanningScene)
    (m : CollisionObjectMsg)
    (hop : m.operation = Op.ADD ∨ m.operation = Op.APPEND)
    (hp : m.primitives = []) (hm : m.meshes = []) (hpl : m.planes = [])
    (hid : m.id ≠ OCTOMAP_NS) :
    s.processCollisionObjectMsg m = (false, s) := by
  have hadd : s.processCollisionObjectAdd m = (false, s) := by
    unfold PlanningScene.processCollisionObjectAdd
    by_cases hk : s.knowsFrameTransform m.frame_id
    · simp [hk, hp, hm, hpl]
    · simp [hk]
  rcases hop with h | h <;>
    simp [PlanningScene.processCollisionObjectMsg, h, hid, hadd]

/-- Witness for the amended C3 at a concrete input. -/
theorem c3_witness :
    sceneEx.processCollisionObjectMsg { msgEx with operation := Op.ADD } =
      (false, sceneEx) :=
  c3_no_shape_add_append_fail sceneEx _ (Or.inl rfl) rfl rfl rfl (by decide)

/-- C1 counterexample: a MOVE for `box` with a mismatched shape-pose count
fails, but the object pose has already been overwritten (5 became 1) — the
count is not checked before the pose is applied. -/
theorem c1_counterexample :
    (sceneBox.processCollisionObjectMsg msgMoveMismatch).1 = false ∧
    ((sceneBox.processCollisionObjectMsg msgMoveMismatch).2.world.getObject
      "box").map Obj.pose = some 1 ∧
    (sceneBox.world.getObject "box").map Obj.pose = some 5 := by
  refine ⟨by decide, by decide, by decide⟩

/-- C1 as amended: a MOVE message naming an existing object with a non-zero
supplied shape-pose count different from the object's shape count returns
failure and leaves the object's shapes, shape poses and subframes unchanged,
but its object pose has already been updated to the message's aggregate pose
composed with the header transform — the pose write precedes the count
check. -/
theorem c1_move_mismatch_partial_pose (s : PlanningScene)
    (m : CollisionObjectMsg) (o : Obj)
    (hop : m.operation = Op.MOVE) (hid : m.id ≠ OCTOMAP_NS)
    (hobj : s.world.getObject m.id = some o)
    (hne : ¬m.primitive_poses.isEmpty ∨ ¬m.mesh_poses.isEmpty ∨
      ¬m.plane_poses.isEmpty)
    (hmis : m.primitive_poses.length + m.mesh_poses.length +
      m.plane_poses.length ≠ o.shape_poses.length) :
    s.processCollisionObjectMsg m =
      (false, { s with world := (s.world.setObjectPose m.id
        (s.getFrameTransform m.frame_id + poseOfMsg m.pose)) }) ∧
    (s.processCollisionObjectMsg m).2.world.getObject m.id =
      some { o with pose := s.getFrameTransform m.frame_id + poseOfMsg m.pose } := by
  have hhas : s.world.hasObject m.id = true := by
    simp only [World.hasObject, World.getObject] at hobj ⊢
    simp [hobj]
  have hget := getObject_setObjectPose_present s.world m.id
    (s.getFrameTransform m.frame_id + poseOfMsg m.pose) o hobj
  have hmain : s.processCollisionObjectMove m =
      (false, { s with world := (s.world.setObjectPose m.id
        (s.getFrameTransform m.frame_id + poseOfMsg m.pose)) }) := by
    unfold PlanningScene.processCollisionObjectMove
    simp only [hhas, if_true]
    rw [if_pos hne]
    rw [hget]
    simp [hmis]
  constructor
  · simp [PlanningScene.processCollisionObjectMsg, hop, hid, hmain]
  · simp only [PlanningScene.processCollisionObjectMsg, hop, hid, if_neg hid,
      hmain]
    exact hget

/-- Witness for the amended C1 at a concrete input. -/
theorem c1_witness :
    sceneBox.processCollisionObjectMsg msgMoveMismatch =
      (false, { sceneBox with world := (sceneBox.world.setObjectPose "box"
        (sceneBox.getFrameTransform "world" + poseOfMsg (some 1))) }) ∧
    (sceneBox.processCollisionObjectMsg msgMoveMismatch).2.world.getObject
      "box" = some ⟨sceneBox.getFrameTransform "world" + poseOfMsg (some 1),
        [Shape.sphere 1], [0], []⟩ :=
  c1_move_mismatch_partial_pose sceneBox msgMoveMismatch
    ⟨5, [Shape.sphere 1], [0], []⟩ rfl (by decide) (by decide)
    (by decide) (by decide)

/-- C2: the `checkCollisionUnpadded` overloads at planning_scene.cpp:457 and
:502 build the forced request but forward the caller's original one, so with
`pad_environment_collisions = true` the environment query runs against the
padded environment (here reporting a hit) although the forced-unpadded query
reports none; the overload at :465 forwards the forced request as the spec
describes. -/
theorem c2_unpadded_overloads_use_padded_env :
    checkCollisionUnpadded1 csDemo reqPadded res0 = ⟨true, 0⟩ ∧
    checkCollisionUnpadded6 csDemo reqPadded res0 csDemo.state csDemo.acm =
      ⟨true, 0⟩ ∧
    checkCollision csDemo
      { reqPadded with pad_environment_collisions := false } res0
      csDemo.state csDemo.acm = ⟨false, 0⟩ ∧
    checkCollisionUnpadded2 csDemo reqPadded res0 = ⟨false, 0⟩ := by
  refine ⟨rfl, rfl, rfl, rfl⟩

/-- C5: forking a scene and immediately pushing the (empty) diff back onto
the parent leaves the parent's world objects, robot state and allowed
collision matrix unchanged. -/
theorem c5_fork_pushdiffs_identity (p : PlanningScene) :
    ((DiffScene.fork p).pushDiffs p).world = p.world ∧
    ((DiffScene.fork p).pushDiffs p).robot = p.robot ∧
    ((DiffScene.fork p).pushDiffs p).acm = p.acm := by
  refine ⟨rfl, rfl, rfl⟩

/-- C8: after the environment query (padded or unpadded per the request),
`checkCollision` returns that result without any self-collision query
exactly when a collision was found and contacts are disabled or the contact
budget is already met; otherwise it returns the self-collision query —
against the environment selected by `pad_self_collisions` — applied to the
environment result. -/
theorem c8_early_return_characterization (cs : CollisionSceneView)
    (req : CollisionRequest) (res : CollisionResult) (rs : RobotState)
    (acm : ACM) :
    ((envQuery cs req res rs acm).collision ∧
      (¬req.contacts ∨
        req.max_contacts ≤ (envQuery cs req res rs acm).contacts) →
      checkCollision cs req res rs acm = envQuery cs req res rs acm) ∧
    (¬((envQuery cs req res rs acm).collision ∧
      (¬req.contacts ∨
        req.max_contacts ≤ (envQuery cs req res rs acm).contacts)) →
      checkCollision cs req res rs acm =
        selfQuery cs req (envQuery cs req res rs acm) rs acm) := by
  constructor
  · intro h
    simp only [checkCollision, envQuery] at h ⊢
    rw [if_pos h]
  · intro h
    simp only [checkCollision, envQuery, selfQuery] at h ⊢
    rw [if_neg h]

/-- Witness for C8: the early return fires on the padded-hit configuration,
and the self-collision path runs when the environment query misses. -/
theorem c8_witness :
    (checkCollision csDemo reqPadded res0 csDemo.state csDemo.acm =
      envQuery csDemo reqPadded res0 csDemo.state csDemo.acm) ∧
    (checkCollision csDemo
        { reqPadded with pad_environment_collisions := false } res0
        csDemo.state csDemo.acm =
      selfQuery csDemo { reqPadded with pad_environment_collisions := false }
        (envQuery csDemo { reqPadded with pad_environment_collisions := false }
          res0 csDemo.state csDemo.acm) csDemo.state csDemo.acm) :=
  ⟨(c8_early_return_characterization csDemo reqPadded res0 csDemo.state
      csDemo.acm).1 (by decide),
   (c8_early_return_characterization csDemo
      { reqPadded with pad_environment_collisions := false } res0 csDemo.state
      csDemo.acm).2 (by decide)⟩

/-- C4 counterexample: attaching `x` with message geometry and then
processing a plain ADD collision-object message for the same id leaves `x`
both in the World and attached on the robot state — disjointness is not an
invariant of the message-processing entry points. -/
theorem c4_counterexample :
    (((sceneEx.processAttachedCollisionObjectMsg amsgAttachX).2.processCollisionObjectMsg
        msgAddX).2.world.hasObject "x" = true) ∧
    (((sceneEx.processAttachedCollisionObjectMsg amsgAttachX).2.processCollisionObjectMsg
        msgAddX).2.robot.hasAttachedBody "x" = true) := by
  constructor <;> decide

/-- C4 as amended: processAttachedCollisionObjectMsg alone preserves the
disjointness invariant — attach removes the same-named World object before
attaching, and detach inserts a body into the World only when no same-named
object exists while always clearing it from the robot state — but the
invariant does not extend to processCollisionObjectMsg, whose ADD operation
can create a World object whose id is currently attached. -/
theorem c4_attached_msg_preserves_disjointness (s : PlanningScene)
    (m : AttachedMsg) (h : disjointIds s) :
    disjointIds (s.processAttachedCollisionObjectMsg m).2 := by
  unfold PlanningScene.processAttachedCollisionObjectMsg
  by_cases h1 : m.object.operation = Op.ADD ∧ ¬s.robot.hasLink m.link_name
  · rw [if_pos h1]; exact h
  rw [if_neg h1]
  by_cases h2 : m.object.id = OCTOMAP_NS
  · rw [if_pos h2]; exact h
  rw [if_neg h2]
  by_cases h3 : m.object.operation = Op.ADD ∨ m.object.operation = Op.APPEND
  · rw [if_pos h3]
    cases hlink : lookupA s.robot.links m.link_name with
    | none => exact h
    | some linkPose =>
        dsimp only
        -- the final scene never depends on the geometry source succeeding:
        -- case on the computed info tuple
        generalize hinfo : (if m.object.operation = Op.ADD ∧
            m.object.primitives.isEmpty = true ∧
            m.object.meshes.isEmpty = true ∧
            m.object.planes.isEmpty = true then
          match s.world.getObject m.object.id with
          | some obj => some (-linkPose + obj.pose, obj.shapes,
              obj.shape_poses, obj.subframe_poses)
          | none => none
          else
          match shapesAndPosesFromCollisionObjectMessage m.object with
          | none => none
          | some (objPose, shs, shPoses) =>
              some (-linkPose + s.getFrameTransform m.object.frame_id +
                objPose, shs, shPoses,
                ((m.object.subframe_names.zip m.object.subframe_poses).foldl
                  (fun acc q => setAssoc acc q.1 q.2) []))) = info
        cases info with
        | none => exact h
        | some v =>
            obtain ⟨poseInLink, shs, shPoses, subs⟩ := v
            dsimp only
            by_cases hemp : shs.isEmpty
            · rw [if_pos hemp]; exact h
            rw [if_neg hemp]
            -- the scene after the optional type write
            have hd1 : disjointIds (if m.object.type ≠ ("", "") then
                s.setObjectType m.object.id m.object.type else s) := by
              by_cases ht : m.object.type ≠ ("", "")
              · rw [if_pos ht]; exact disjoint_setObjectType s _ _ h
              · rw [if_neg ht]; exact h
            generalize hs1 : (if m.object.type ≠ ("", "") then
              s.setObjectType m.object.id m.object.type else s) = s1 at hd1
            have hw1 : s1.world = s.world := by
              rw [← hs1]
              by_cases ht : m.object.type ≠ ("", "") <;> simp [ht,
                PlanningScene.setObjectType]
            have hr1 : s1.robot = s.robot := by
              rw [← hs1]
              by_cases ht : m.object.type ≠ ("", "") <;> simp [ht,
                PlanningScene.setObjectType]
            -- the scene after the optional world removal
            by_cases hoiw : (s.world.getObject m.object.id).isSome
            · rw [if_pos hoiw]
              have hd2 : disjointIds { s1 with world :=
                  (s1.world.removeObject m.object.id).2 } := by
                intro k hk
                simp only [World.removeObject] at hk
                rw [hasObject_erase] at hk
                by_cases hki : k = m.object.id
                · rw [if_pos hki] at hk
                  exact absurd hk (by simp)
                · rw [if_neg hki] at hk
                  exact hd1 k hk
              have hw2 : ({ s1 with world :=
                  (s1.world.removeObject m.object.id).2 } :
                    PlanningScene).world.hasObject m.object.id = false := by
                simp only [World.removeObject]
                rw [hasObject_erase, if_pos rfl]
              generalize hs2 : ({ s1 with world :=
                (s1.world.removeObject m.object.id).2 } : PlanningScene) = s2
                at hd2 hw2
              by_cases hrep : m.object.operation = Op.ADD ∨
                  ¬s2.robot.hasAttachedBody m.object.id
              · rw [if_pos hrep]
                exact disjoint_attach_final s2 m.object.id poseInLink shs
                  shPoses m.touch_links m.link_name m.detach_posture subs hd2
                  hw2
              · rw [if_neg hrep]
                cases hab : s2.robot.getAttachedBody m.object.id with
                | none => exact hd2
                | some ab =>
                    dsimp only
                    exact disjoint_attach_final s2 m.object.id _ _ _ _ _ _ _
                      hd2 hw2
            · rw [if_neg hoiw]
              have hw2 : s1.world.hasObject m.object.id = false := by
                rw [hw1]
                simp only [World.hasObject]
                simp only [World.getObject] at hoiw
                simpa using hoiw
              by_cases hrep : m.object.operation = Op.ADD ∨
                  ¬s1.robot.hasAttachedBody m.object.id
              · rw [if_pos hrep]
                exact disjoint_attach_final s1 m.object.id poseInLink shs
                  shPoses m.touch_links m.link_name m.detach_posture subs hd1
                  hw2
              · rw [if_neg hrep]
                cases hab : s1.robot.getAttachedBody m.object.id with
                | none => exact hd1
                | some ab =>
                    dsimp only
                    exact disjoint_attach_final s1 m.object.id _ _ _ _ _ _ _
                      hd1 hw2
  · rw [if_neg h3]
    by_cases h4 : m.object.operation = Op.REMOVE
    · rw [if_pos h4]
      cases hsel : s.selectDetachBodies m with
      | none => exact h
      | some bodies =>
          dsimp only
          by_cases h5 : ¬bodies.isEmpty ∨ m.object.id = "" <;>
            [rw [if_pos h5]; rw [if_neg h5]] <;>
            exact disjoint_detach_foldl bodies s h
    · rw [if_neg h4]; exact h

/-- Witness for the amended C4: detaching everything from a disjoint scene
yields a disjoint scene. -/
theorem c4_witness :
    disjointIds
      (sceneAttached.processAttachedCollisionObjectMsg amsgDetachAll).2 :=
  c4_attached_msg_preserves_disjointness sceneAttached amsgDetachAll
    (fun id hid => by
      simp [sceneAttached, sceneEx, World.hasObject, lookupA] at hid)

/-- C6: for a detach (REMOVE) message with a non-reserved id, the result is
the per-body detach loop over the selected bodies and it succeeds exactly
when a body was selected or the id filter was empty; each selected body
whose name already exists as a World object is not inserted but still
cleared from the robot state; each body without such a collision is
inserted at its current global pose with its shapes and subframes and its
recorded original color is restored. -/
theorem c6_detach_characterization (s : PlanningScene) (m : AttachedMsg)
    (hop : m.object.operation = Op.REMOVE) (hid : m.object.id ≠ OCTOMAP_NS) :
    ((s.processAttachedCollisionObjectMsg m).1 = true ↔
      ∃ bodies, s.selectDetachBodies m = some bodies ∧
        (¬bodies.isEmpty ∨ m.object.id = "")) ∧
    (∀ bodies, s.selectDetachBodies m = some bodies →
      (s.processAttachedCollisionObjectMsg m).2 =
        bodies.foldl PlanningScene.detachBodyStep s) ∧
    (∀ (s' : PlanningScene) (nb : String × AttachedBody),
      s'.world.hasObject nb.1 = true →
        s'.detachBodyStep nb =
          { s' with robot := (s'.robot.clearAttachedBody nb.1).2 }) ∧
    (∀ (s' : PlanningScene) (nb : String × AttachedBody),
      s'.world.hasObject nb.1 = false →
      nb.2.shapes.length = nb.2.shape_poses.length → nb.2.shapes ≠ [] →
      nb.1 ≠ "" →
        ((s'.detachBodyStep nb).world.getObject nb.1 =
          some ⟨s'.robot.globalBodyPose nb.2, nb.2.shapes, nb.2.shape_poses,
            nb.2.subframe_poses⟩) ∧
        (s'.detachBodyStep nb).robot.hasAttachedBody nb.1 = false ∧
        (∀ c, s'.getOriginalObjectColor nb.1 = some c →
          lookupA (s'.detachBodyStep nb).objectColors nb.1 = some c)) := by
  have h1 : ¬(m.object.operation = Op.ADD ∧ ¬s.robot.hasLink m.link_name) := by
    rw [hop]; rintro ⟨ha, -⟩; exact Op.noConfusion ha
  have h3 : ¬(m.object.operation = Op.ADD ∨
      m.object.operation = Op.APPEND) := by
    rw [hop]; rintro (ha | ha) <;> exact Op.noConfusion ha
  have hform : s.processAttachedCollisionObjectMsg m =
      (match s.selectDetachBodies m with
       | none => (false, s)
       | some bodies =>
           if ¬bodies.isEmpty ∨ m.object.id = "" then
             (true, bodies.foldl PlanningScene.detachBodyStep s)
           else (false, bodies.foldl PlanningScene.detachBodyStep s)) := by
    unfold PlanningScene.processAttachedCollisionObjectMsg
    rw [if_neg h1, if_neg hid, if_neg h3, if_pos hop]
  refine ⟨?_, ?_, ?_, ?_⟩
  · rw [hform]
    cases hsel : s.selectDetachBodies m with
    | none =>
        dsimp only
        constructor
        · intro ht; exact absurd ht (by simp)
        · rintro ⟨bodies, hb, -⟩; exact Option.noConfusion hb
    | some bodies =>
        dsimp only
        by_cases hc : ¬bodies.isEmpty ∨ m.object.id = ""
        · rw [if_pos hc]
          exact ⟨fun _ => ⟨bodies, rfl, hc⟩, fun _ => rfl⟩
        · rw [if_neg hc]
          constructor
          · intro ht; exact absurd ht (by simp)
          · rintro ⟨bodies', hb', hc'⟩
            injection hb' with hbb
            subst hbb
            exact absurd hc' hc
  · intro bodies hb
    rw [hform, hb]
    dsimp only
    split <;> rfl
  · intro s' nb hw
    unfold PlanningScene.detachBodyStep
    dsimp only
    rw [if_pos hw]
  · intro s' nb hw hlen hne hn
    have hw1 : (s'.world.addToObject nb.1 (s'.robot.globalBodyPose nb.2)
        nb.2.shapes nb.2.shape_poses).getObject nb.1 =
        some ⟨s'.robot.globalBodyPose nb.2, nb.2.shapes, nb.2.shape_poses,
          []⟩ :=
      getObject_addToObject_new _ _ _ _ _ hw hlen hne
    have hw2 : (((s'.world.addToObject nb.1 (s'.robot.globalBodyPose nb.2)
        nb.2.shapes nb.2.shape_poses).setSubframesOfObject nb.1
          nb.2.subframe_poses).2).getObject nb.1 =
        some ⟨s'.robot.globalBodyPose nb.2, nb.2.shapes, nb.2.shape_poses,
          nb.2.subframe_poses⟩ :=
      getObject_setSubframes_self _ _ _ _ hw1
    refine ⟨?_, ?_, ?_⟩
    · unfold PlanningScene.detachBodyStep
      dsimp only
      rw [if_neg (by simp [hw])]
      rw [world_colorRestore]
      exact hw2
    · unfold PlanningScene.detachBodyStep
      dsimp only
      rw [if_neg (by simp [hw])]
      rw [hasAttached_clear, if_pos rfl]
    · intro c hc
      unfold PlanningScene.detachBodyStep
      dsimp only
      rw [if_neg (by simp [hw])]
      rw [show PlanningScene.getOriginalObjectColor
        { s' with world := ((s'.world.addToObject nb.1
            (s'.robot.globalBodyPose nb.2) nb.2.shapes
            nb.2.shape_poses).setSubframesOfObject nb.1
              nb.2.subframe_poses).2 } nb.1 = some c from hc]
      dsimp only
      exact lookupA_colors_setObjectColor _ _ _ hn

/-- Witness for C6: detaching everything from the scene with one attached
body succeeds and runs the detach loop over exactly that body. -/
theorem c6_witness :
    (sceneAttached.processAttachedCollisionObjectMsg amsgDetachAll).1 =
      true ∧
    (sceneAttached.processAttachedCollisionObjectMsg amsgDetachAll).2 =
      [("x", ⟨"l", 1, [Shape.sphere 1], [0], [("s", 4)], [], []⟩)].foldl
        PlanningScene.detachBodyStep sceneAttached :=
  ⟨((c6_detach_characterization sceneAttached amsgDetachAll rfl
      (by decide)).1).mpr
    ⟨[("x", ⟨"l", 1, [Shape.sphere 1], [0], [("s", 4)], [], []⟩)],
      by decide, Or.inl (by decide)⟩,
   (c6_detach_characterization sceneAttached amsgDetachAll rfl
      (by decide)).2.1
    [("x", ⟨"l", 1, [Shape.sphere 1], [0], [("s", 4)], [], []⟩)] (by decide)⟩

section LoaderLemmas

/-- Reading an encoded pose block (two lines of three and four numeric
tokens, the padding zeros chosen by the encoder). -/
theorem readPose_encode (p : Int) (L : List (List Word)) :
    SStream.readPose ⟨[Word.num p, Word.num 0, Word.num 0] ::
      [Word.num 0, Word.num 0, Word.num 0, Word.num 0] :: L, false⟩ =
      (some p, ⟨L, false⟩) := by
  simp [SStream.readPose, SStream.readInts, SStream.readIntTok,
    SStream.readWord, readWordAux, consLine, List.isEmpty]

/-- Reading an encoded pose given as one line of seven numeric tokens. -/
theorem readPose_encode_line (p : Int) (L : List (List Word)) :
    SStream.readPose ⟨[Word.num p, Word.num 0, Word.num 0, Word.num 0,
      Word.num 0, Word.num 0, Word.num 0] :: L, false⟩ =
      (some p, ⟨L, false⟩) := by
  simp [SStream.readPose, SStream.readInts, SStream.readIntTok,
    SStream.readWord, readWordAux, consLine, List.isEmpty]

/-- Reading an encoded count line. -/
theorem readNatTok_encode (n : Nat) (L : List (List Word)) :
    SStream.readNatTok ⟨[Word.num (n : Int)] :: L, false⟩ =
      (some n, ⟨L, false⟩) := by
  have h1 : ¬((n : Int) < 0) := by omega
  have h2 : ((n : Int)).toNat = n := by omega
  simp [SStream.readNatTok, SStream.readIntTok, SStream.readWord,
    readWordAux, consLine, List.isEmpty, h1, h2]

/-- Reading an encoded color line. -/
theorem readColor_encode (c : Color) (L : List (List Word)) :
    SStream.readColor ⟨[Word.num c.r, Word.num c.g, Word.num c.b,
      Word.num c.a] :: L, false⟩ = (some c, ⟨L, false⟩) := by
  simp [SStream.readColor, SStream.readInts, SStream.readIntTok,
    SStream.readWord, readWordAux, consLine, List.isEmpty]

/-- Reading an encoded box shape (type word plus dimension line). -/
theorem readShape_encode (d1 d2 d3 : Int) (L : List (List Word)) :
    SStream.readShape ⟨[Word.str "box"] ::
      [Word.num d1, Word.num d2, Word.num d3] :: L, false⟩ =
      (some (Shape.box d1 d2 d3), ⟨L, false⟩) := by
  simp [SStream.readShape, SStream.readInts, SStream.readIntTok,
    SStream.readWord, readWordAux, consLine, List.isEmpty]

/-- The shape loop over an encoded shape list inserts exactly those shapes
and leaves the rest of the stream untouched. -/
theorem parseShapes_encode (id : String) :
    ∀ (gs : List GoodShape) (sc : PlanningScene) (L : List (List Word)),
      parseShapes id gs.length sc ⟨(gs.map encodeShape).flatten ++ L, false⟩ =
        (true, gs.foldl (applyGoodShape id) sc, ⟨L, false⟩) := by
  intro gs
  induction gs with
  | nil => intro sc L; simp [parseShapes]
  | cons g t ih =>
      intro sc L
      have hstream : ((g :: t).map encodeShape).flatten ++ L =
          [Word.str "box"] :: [Word.num g.d1, Word.num g.d2, Word.num g.d3] ::
          [Word.num g.pose, Word.num 0, Word.num 0] ::
          [Word.num 0, Word.num 0, Word.num 0, Word.num 0] ::
          [Word.num g.color.r, Word.num g.color.g, Word.num g.color.b,
            Word.num g.color.a] :: ((t.map encodeShape).flatten ++ L) := by
        simp [encodeShape]
      rw [List.length_cons, hstream]
      simp only [parseShapes, readShape_encode, readPose_encode,
        readColor_encode, ih, List.foldl_cons]
      rfl

/-- The subframe loop over an encoded subframe list accumulates exactly the
encoded map. -/
theorem parseSubframes_encode :
    ∀ (subs : List (String × Int)) (acc : List (String × Pose))
      (L : List (List Word)),
      parseSubframes subs.length acc ⟨subs.map encodeSubframe ++ L, false⟩ =
        (true, subs.foldl (fun a q => setAssoc a q.1 (q.2 : Pose)) acc,
          ⟨L, false⟩) := by
  intro subs
  induction subs with
  | nil => intro acc L; simp [parseSubframes]
  | cons q t ih =>
      intro acc L
      rw [List.length_cons, List.map_cons, List.cons_append]
      have hw : SStream.readWord ⟨encodeSubframe q ::
          (t.map encodeSubframe ++ L), false⟩ = (some (Word.str q.1),
            ⟨[Word.num q.2, Word.num 0, Word.num 0, Word.num 0, Word.num 0,
              Word.num 0, Word.num 0] :: (t.map encodeSubframe ++ L),
             false⟩) := by
        simp [SStream.readWord, readWordAux, encodeSubframe, consLine,
          List.isEmpty]
      simp only [parseSubframes, hw, readPose_encode_line, ih,
        List.foldl_cons, wordStr]
      rfl

/-- One whole encoded record is parsed into exactly its net scene effect,
consuming exactly its own lines and asking the loop to continue. -/
theorem parseRecord_encode (sc : PlanningScene) (off : Pose) (r : GoodRec)
    (L : List (List Word)) :
    parseRecord sc off true ⟨encodeRec r ++ L, false⟩ =
      (none, applyRec off r sc, ⟨L, false⟩) := by
  have hstream : encodeRec r ++ L =
      [Word.str "*", Word.str r.id] ::
      [Word.num r.pose, Word.num 0, Word.num 0] ::
      [Word.num 0, Word.num 0, Word.num 0, Word.num 0] ::
      [Word.num (r.shapes.length : Int)] ::
      ((r.shapes.map encodeShape).flatten ++
        ([Word.num (r.subframes.length : Int)] ::
          (r.subframes.map encodeSubframe ++ L))) := by
    simp [encodeRec]
  rw [hstream]
  simp [parseRecord, SStream.readWord, readWordAux, consLine,
    List.isEmpty, wordStr, SStream.readLine, joinWords, readPose_encode,
    readNatTok_encode, parseShapes_encode, parseSubframes_encode,
    Option.getD, applyRec]

/-- One loop iteration over an encoded record. -/
theorem loadLoopF_encode_step (off : Pose) (sc : PlanningScene) (r : GoodRec)
    (L : List (List Word)) (fuel : Nat) :
    loadLoopF (fuel + 1) off true ⟨encodeRec r ++ L, false⟩ sc =
      loadLoopF fuel off true ⟨L, false⟩ (applyRec off r sc) := by
  simp only [loadLoopF, parseRecord_encode]

/-- The loop over a whole encoded record list folds their effects. -/
theorem loadLoopF_encodeRecs (off : Pose) :
    ∀ (recs : List GoodRec) (fuel : Nat) (sc : PlanningScene)
      (L : List (List Word)),
      loadLoopF (fuel + recs.length) off true
          ⟨(recs.map encodeRec).flatten ++ L, false⟩ sc =
        loadLoopF fuel off true ⟨L, false⟩
          (recs.foldl (fun a r => applyRec off r a) sc) := by
  intro recs
  induction recs with
  | nil => intro fuel sc L; simp
  | cons r t ih =>
      intro fuel sc L
      have harith : fuel + (r :: t).length = (fuel + t.length) + 1 := by
        simp [List.length_cons]
        omega
      rw [harith]
      have hstream : ((r :: t).map encodeRec).flatten ++ L =
          encodeRec r ++ ((t.map encodeRec).flatten ++ L) := by
        simp
      rw [hstream, loadLoopF_encode_step, ih, List.foldl_cons]

/-- An unknown marker aborts the loop, returning the scene built so far. -/
theorem loadLoopF_badMarker (f : Nat) (off : Pose) (un : Bool)
    (sc : PlanningScene) (m : String) (hm1 : m ≠ "*") (hm2 : m ≠ ".") :
    loadLoopF (f + 1) off un ⟨[[Word.str m]], false⟩ sc = (false, sc) := by
  simp [loadLoopF, parseRecord, SStream.readWord, readWordAux, consLine,
    List.isEmpty, wordStr, hm1, hm2]

/-- Format detection on an encoded stream: the first record line starts with
`*` and is followed by the three-token pose line, so the new format is
detected cleanly. -/
theorem detectFormat_encode (r : GoodRec) (L : List (List Word)) :
    detectFormat (encodeRec r ++ L) = (true, false) := by
  simp [encodeRec, detectFormat, starLine]

/-- `setObjectPose` makes its id present. -/
theorem hasObject_setObjectPose_self (w : World) (id : String) (p : Pose) :
    (w.setObjectPose id p).hasObject id = true := by
  unfold World.setObjectPose World.hasObject
  by_cases h : (lookupA w id).isSome
  · simp [h, lookupA_updObject]
  · have hn : lookupA w id = none := by
      cases hl : lookupA w id
      · rfl
      · rw [hl] at h; simp at h
    simp [h, lookupA_append, hn, lookupA]

/-- `setObjectPose` keeps every present id present. -/
theorem hasObject_setObjectPose_mono (w : World) (id k : String) (p : Pose)
    (h : w.hasObject k = true) : (w.setObjectPose id p).hasObject k = true := by
  by_cases hk : k = id
  · subst hk; exact hasObject_setObjectPose_self w k p
  · unfold World.hasObject at h
    unfold World.setObjectPose World.hasObject
    by_cases hu : (lookupA w id).isSome
    · simp [hu, lookupA_updObject, hk, h]
    · simp [hu, lookupA_append]
      cases hl : lookupA w k
      · rw [hl] at h; simp at h
      · simp
/-- `addShapeToObject` keeps every present id present. -/
theorem hasObject_addShapeToObject_mono (w : World) (id k : String)
    (s : Shape) (p : Pose) (h : w.hasObject k = true) :
    (w.addShapeToObject id s p).hasObject k = true := by
  unfold World.hasObject at h
  unfold World.addShapeToObject World.hasObject
  by_cases hu : (lookupA w id).isSome
  · by_cases hk : k = id <;> simp [hu, lookupA_updObject, hk, h]
  · simp [hu, lookupA_append]
    cases hl : lookupA w k
    · rw [hl] at h; simp at h
    · simp

/-- One shape insertion of the loader keeps every present id present. -/
theorem hasObject_applyGoodShape (id : String) (sc : PlanningScene)
    (g : GoodShape) (k : String) (h : sc.world.hasObject k = true) :
    (applyGoodShape id sc g).world.hasObject k = true := by
  unfold applyGoodShape applyShapeLoad
  dsimp only
  by_cases hc : g.color.r > 0 ∨ g.color.g > 0 ∨ g.color.b > 0 ∨
      g.color.a > 0
  · rw [if_pos hc, world_setObjectColor]
    exact hasObject_addShapeToObject_mono _ _ _ _ _ h
  · rw [if_neg hc]
    exact hasObject_addShapeToObject_mono _ _ _ _ _ h

/-- The loader's shape fold keeps every present id present. -/
theorem hasObject_foldl_applyGoodShape (id : String) (gs : List GoodShape) :
    ∀ (sc : PlanningScene) (k : String), sc.world.hasObject k = true →
      ((gs.foldl (applyGoodShape id) sc)).world.hasObject k = true := by
  induction gs with
  | nil => intro sc k h; exact h
  | cons g t ih =>
      intro sc k h
      rw [List.foldl_cons]
      exact ih _ k (hasObject_applyGoodShape id sc g k h)

/-- Loading a record keeps every present id present. -/
theorem hasObject_applyRec_mono (off : Pose) (r : GoodRec)
    (sc : PlanningScene) (k : String) (h : sc.world.hasObject k = true) :
    (applyRec off r sc).world.hasObject k = true := by
  unfold applyRec
  dsimp only
  rw [hasObject_setSubframes]
  exact hasObject_foldl_applyGoodShape r.id r.shapes _ k
    (hasObject_setObjectPose_mono _ _ _ _ h)

/-- Loading a record makes its own id present. -/
theorem hasObject_applyRec_self (off : Pose) (r : GoodRec)
    (sc : PlanningScene) : (applyRec off r sc).world.hasObject r.id = true := by
  unfold applyRec
  dsimp only
  rw [hasObject_setSubframes]
  exact hasObject_foldl_applyGoodShape r.id r.shapes _ r.id
    (hasObject_setObjectPose_self _ _ _)

/-- The record fold keeps every present id present. -/
theorem hasObject_foldl_applyRec_mono (off : Pose) (recs : List GoodRec) :
    ∀ (sc : PlanningScene) (k : String), sc.world.hasObject k = true →
      ((recs.foldl (fun a x => applyRec off x a) sc)).world.hasObject k =
        true := by
  induction recs with
  | nil => intro sc k h; exact h
  | cons r t ih =>
      intro sc k h
      rw [List.foldl_cons]
      exact ih _ k (hasObject_applyRec_mono off r sc k h)

/-- Every loaded record's id is present after the record fold. -/
theorem hasObject_foldl_applyRec (off : Pose) (recs : List GoodRec) :
    ∀ (sc : PlanningScene) (r : GoodRec), r ∈ recs →
      ((recs.foldl (fun a x => applyRec off x a) sc)).world.hasObject r.id =
        true := by
  induction recs with
  | nil => intro sc r h; simp at h
  | cons r0 t ih =>
      intro sc r h
      rw [List.foldl_cons]
      rcases List.mem_cons.mp h with h0 | hmem
      · subst h0
        exact hasObject_foldl_applyRec_mono off t _ _
          (hasObject_applyRec_self off r sc)
      · exact ih _ r hmem

/-- `setObjectColor` does not change the scene name. -/
theorem name_setObjectColor (s : PlanningScene) (id : String) (c : Color) :
    (s.setObjectColor id c).name = s.name := by
  unfold PlanningScene.setObjectColor
  by_cases h : id = ""
  · simp [h]
  · by_cases h2 : (lookupA s.originalObjectColors id).isSome <;>
      simp [h, h2]

/-- Loading a shape does not change the scene name. -/
theorem name_applyGoodShape (id : String) (sc : PlanningScene)
    (g : GoodShape) : (applyGoodShape id sc g).name = sc.name := by
  unfold applyGoodShape applyShapeLoad
  dsimp only
  by_cases hc : g.color.r > 0 ∨ g.color.g > 0 ∨ g.color.b > 0 ∨
      g.color.a > 0
  · rw [if_pos hc, name_setObjectColor]
  · rw [if_neg hc]

/-- The shape fold does not change the scene name. -/
theorem name_foldl_applyGoodShape (id : String) (gs : List GoodShape) :
    ∀ (sc : PlanningScene),
      ((gs.foldl (applyGoodShape id) sc)).name = sc.name := by
  induction gs with
  | nil => intro sc; rfl
  | cons g t ih =>
      intro sc
      rw [List.foldl_cons, ih, name_applyGoodShape]

/-- Loading a record does not change the scene name. -/
theorem name_applyRec (off : Pose) (r : GoodRec) (sc : PlanningScene) :
    (applyRec off r sc).name = sc.name := by
  unfold applyRec
  dsimp only
  rw [name_foldl_applyGoodShape]

/-- The record fold does not change the scene name. -/
theorem name_foldl_applyRec (off : Pose) (recs : List GoodRec) :
    ∀ (sc : PlanningScene),
      ((recs.foldl (fun a x => applyRec off x a) sc)).name = sc.name := by
  induction recs with
  | nil => intro sc; rfl
  | cons r t ih =>
      intro sc
      rw [List.foldl_cons, ih, name_applyRec]

/-- Every encoded record spans at least one line. -/
theorem length_flatten_encodeRec (recs : List GoodRec) :
    recs.length ≤ ((recs.map encodeRec).flatten).length := by
  induction recs with
  | nil => simp
  | cons r t ih =>
      have h1 : 1 ≤ (encodeRec r).length := by
        simp [encodeRec]
      simp only [List.map_cons, List.flatten_cons, List.length_append,
        List.length_cons]
      omega

end LoaderLemmas

/-- C10: loading a stream made of a name line, any non-empty list of
well-formed object records and then a malformed marker returns failure while
leaving the scene renamed from the first line and every record parsed
before the error applied to the world — `loadGeometryFromStream` is not
atomic on failure. -/
theorem c10_load_partial_state (nm : String) (recs : List GoodRec)
    (m : String) (sc : PlanningScene) (offset : Pose)
    (hrecs : recs ≠ []) (hm1 : m ≠ "*") (hm2 : m ≠ ".") :
    sc.loadGeometryFromStream offset ([Word.str nm] ::
        ((recs.map encodeRec).flatten ++ [[Word.str m]])) =
      (false, recs.foldl (fun a r => applyRec offset r a)
        { sc with name := nm }) ∧
    (sc.loadGeometryFromStream offset ([Word.str nm] ::
        ((recs.map encodeRec).flatten ++ [[Word.str m]]))).2.name = nm ∧
    ∀ r ∈ recs, (sc.loadGeometryFromStream offset ([Word.str nm] ::
        ((recs.map encodeRec).flatten ++ [[Word.str m]]))).2.world.hasObject
        r.id = true := by
  obtain ⟨r0, rs, rfl⟩ : ∃ r0 rs, recs = r0 :: rs := by
    cases recs with
    | nil => exact absurd rfl hrecs
    | cons a b => exact ⟨a, b, rfl⟩
  have hdet : detectFormat (((r0 :: rs).map encodeRec).flatten ++
      [[Word.str m]]) = (true, false) := by
    have hsplit : ((r0 :: rs).map encodeRec).flatten ++ [[Word.str m]] =
        encodeRec r0 ++ ((rs.map encodeRec).flatten ++ [[Word.str m]]) := by
      simp
    rw [hsplit]
    exact detectFormat_encode r0 _
  have hlen : (r0 :: rs).length ≤
      (((r0 :: rs).map encodeRec).flatten).length :=
    length_flatten_encodeRec (r0 :: rs)
  obtain ⟨f, hf⟩ : ∃ f, (((r0 :: rs).map encodeRec).flatten ++
      [[Word.str m]]).length + 1 = (f + 1) + (r0 :: rs).length := by
    refine ⟨(((r0 :: rs).map encodeRec).flatten ++
      [[Word.str m]]).length - (r0 :: rs).length, ?_⟩
    have : (r0 :: rs).length ≤ (((r0 :: rs).map encodeRec).flatten ++
        [[Word.str m]]).length := by
      rw [List.length_append]
      omega
    omega
  have hmain : sc.loadGeometryFromStream offset ([Word.str nm] ::
      (((r0 :: rs).map encodeRec).flatten ++ [[Word.str m]])) =
      (false, (r0 :: rs).foldl (fun a r => applyRec offset r a)
        { sc with name := nm }) := by
    unfold PlanningScene.loadGeometryFromStream
    dsimp only
    rw [hdet]
    dsimp only [joinWords, wordStr]
    rw [hf, loadLoopF_encodeRecs]
    exact loadLoopF_badMarker f offset true _ m hm1 hm2
  refine ⟨hmain, ?_, ?_⟩
  · rw [hmain]
    exact name_foldl_applyRec offset (r0 :: rs) _
  · intro r hr
    rw [hmain]
    exact hasObject_foldl_applyRec offset (r0 :: rs) _ r hr

/-- Witness for C10 at a concrete stream: one record, then a bad marker. -/
theorem c10_witness :
    sceneEx.loadGeometryFromStream 0 ([Word.str "demo"] ::
        (([recW].map encodeRec).flatten ++ [[Word.str "?"]])) =
      (false, [recW].foldl (fun a r => applyRec 0 r a)
        { sceneEx with name := "demo" }) ∧
    (sceneEx.loadGeometryFromStream 0 ([Word.str "demo"] ::
        (([recW].map encodeRec).flatten ++ [[Word.str "?"]]))).2.name =
      "demo" :=
  ⟨(c10_load_partial_state "demo" [recW] "?" sceneEx 0 (by simp)
      (by decide) (by decide)).1,
   (c10_load_partial_state "demo" [recW] "?" sceneEx 0 (by simp)
      (by decide) (by decide)).2.1⟩

section FuelAdequacy

/-- Token extraction never lengthens the stream. -/
theorem readWordAux_toks_le :
    ∀ (ls : List (List Word)) (w : Word) (rest : List (List Word)),
      readWordAux ls = some (w, rest) → rest.length ≤ ls.length := by
  intro ls
  induction ls with
  | nil => intro w rest h; exact Option.noConfusion h
  | cons l t ih =>
      intro w rest h
      cases l with
      | nil =>
          have := ih w rest (by simpa [readWordAux] using h)
          simp only [List.length_cons]
          omega
      | cons a ws =>
          simp only [readWordAux] at h
          injection h with h1
          injection h1 with h1 h2
          subst h2
          unfold consLine
          by_cases hws : ws.isEmpty
          · simp only [hws, if_true, List.length_cons]
            omega
          · simp only [hws, Bool.false_eq_true, if_false, List.length_cons]
            omega

/-- One word read never lengthens the stream. -/
theorem readWord_toks_le (st : SStream) :
    (st.readWord).2.toks.length ≤ st.toks.length := by
  unfold SStream.readWord
  by_cases hf : st.failed
  · simp [hf]
  · simp only [hf, Bool.false_eq_true, if_false, ite_false]
    cases hx : readWordAux st.toks with
    | none => simp
    | some p => simpa using readWordAux_toks_le st.toks p.1 p.2 hx

/-- A successful line read strictly shortens the stream. -/
theorem readLine_toks_lt (st : SStream) (x : String) (st2 : SStream)
    (h : st.readLine = (some x, st2)) :
    st2.toks.length < st.toks.length := by
  unfold SStream.readLine at h
  by_cases hf : st.failed
  · rw [if_pos hf] at h
    exact Option.noConfusion (congrArg Prod.fst h)
  · rw [if_neg hf] at h
    cases htk : st.toks with
    | nil => rw [htk] at h; exact Option.noConfusion (congrArg Prod.fst h)
    | cons l rest =>
        rw [htk] at h
        have h2 : st2 = ⟨rest, false⟩ := (congrArg Prod.snd h).symm
        rw [h2]
        simp

/-- A numeric read never lengthens the stream. -/
theorem readIntTok_toks_le (st : SStream) :
    (st.readIntTok).2.toks.length ≤ st.toks.length := by
  unfold SStream.readIntTok
  have h := readWord_toks_le st
  cases hx : st.readWord with
  | mk o st' =>
      rw [hx] at h
      cases o with
      | none => simpa using h
      | some w => cases w <;> simpa using h

/-- An unsigned read never lengthens the stream. -/
theorem readNatTok_toks_le (st : SStream) :
    (st.readNatTok).2.toks.length ≤ st.toks.length := by
  unfold SStream.readNatTok
  have h := readIntTok_toks_le st
  cases hx : st.readIntTok with
  | mk o st' =>
      rw [hx] at h
      cases o with
      | none => simpa using h
      | some n =>
          by_cases hn : n < 0 <;> simpa [hn] using h

/-- A block of numeric reads never lengthens the stream. -/
theorem readInts_toks_le :
    ∀ (n : Nat) (st : SStream),
      (SStream.readInts n st).2.toks.length ≤ st.toks.length := by
  intro n
  induction n with
  | zero => intro st; simp [SStream.readInts]
  | succ k ih =>
      intro st
      simp only [SStream.readInts]
      split
      · rename_i st' heq
        have h := readIntTok_toks_le st
        rw [heq] at h
        simpa using h
      · rename_i v st' heq
        have h := readIntTok_toks_le st
        rw [heq] at h
        split
        · rename_i st2 heq2
          have h2 := ih st'
          rw [heq2] at h2
          simp at h h2 ⊢
          omega
        · rename_i xs st2 heq2
          have h2 := ih st'
          rw [heq2] at h2
          simp at h h2 ⊢
          omega

/-- A pose read never lengthens the stream. -/
theorem readPose_toks_le (st : SStream) :
    (st.readPose).2.toks.length ≤ st.toks.length := by
  have h := readInts_toks_le 7 st
  unfold SStream.readPose
  split <;> rename_i heq <;> rw [heq] at h <;> simpa using h

/-- A color read never lengthens the stream. -/
theorem readColor_toks_le (st : SStream) :
    (st.readColor).2.toks.length ≤ st.toks.length := by
  have h := readInts_toks_le 4 st
  unfold SStream.readColor
  split <;> rename_i heq <;> rw [heq] at h <;> simpa using h

/-- A shape read never lengthens the stream. -/
theorem readShape_toks_le (st : SStream) :
    (st.readShape).2.toks.length ≤ st.toks.length := by
  have h := readWord_toks_le st
  unfold SStream.readShape
  split
  · rename_i st' heq
    rw [heq] at h
    have h2 := readInts_toks_le 3 st'
    split <;> rename_i heq2 <;> rw [heq2] at h2 <;> simp at h h2 ⊢ <;> omega
  · rename_i st' heq
    rw [heq] at h
    have h2 := readIntTok_toks_le st'
    split <;> rename_i heq2 <;> rw [heq2] at h2 <;> simp at h h2 ⊢ <;> omega
  · rename_i st' heq
    rw [heq] at h
    simp at h ⊢
    omega
  · rename_i st' heq
    rw [heq] at h
    simpa using h

/-- The shape loop never lengthens the stream. -/
theorem parseShapes_toks_le (id : String) :
    ∀ (n : Nat) (sc : PlanningScene) (st : SStream),
      (parseShapes id n sc st).2.2.toks.length ≤ st.toks.length := by
  intro n
  induction n with
  | zero => intro sc st; simp [parseShapes]
  | succ k ih =>
      intro sc st
      simp only [parseShapes]
      by_cases hf : st.failed
      · simp [hf]
      · simp only [hf, Bool.false_eq_true, if_false, ite_false]
        split
        · rename_i st' heq
          have h := readShape_toks_le st
          rw [heq] at h
          simpa using h
        · rename_i sh st' heq
          have h := readShape_toks_le st
          rw [heq] at h
          split
          · rename_i st2 heq2
            have h2 := readPose_toks_le st'
            rw [heq2] at h2
            simp at h h2 ⊢
            omega
          · rename_i p st2 heq2
            have h2 := readPose_toks_le st'
            rw [heq2] at h2
            split
            · rename_i st3 heq3
              have h3 := readColor_toks_le st2
              rw [heq3] at h3
              simp at h h2 h3 ⊢
              omega
            · rename_i c st3 heq3
              have h3 := readColor_toks_le st2
              rw [heq3] at h3
              have h4 := ih (applyShapeLoad sc id sh p c) st3
              simp at h h2 h3 ⊢
              omega

/-- The subframe loop never lengthens the stream. -/
theorem parseSubframes_toks_le :
    ∀ (n : Nat) (acc : List (String × Pose)) (st : SStream),
      (parseSubframes n acc st).2.2.toks.length ≤ st.toks.length := by
  intro n
  induction n with
  | zero => intro acc st; simp [parseSubframes]
  | succ k ih =>
      intro acc st
      simp only [parseSubframes]
      by_cases hf : st.failed
      · simp [hf]
      · simp only [hf, Bool.false_eq_true, if_false, ite_false]
        have h := readWord_toks_le st
        split
        · rename_i st2 heq2
          have h2 := readPose_toks_le (st.readWord).2
          rw [heq2] at h2
          simp at h h2 ⊢
          omega
        · rename_i p st2 heq2
          have h2 := readPose_toks_le (st.readWord).2
          rw [heq2] at h2
          have h3 := ih (setAssoc acc
            (match (st.readWord).1 with
              | some w => wordStr w
              | none => "") p) st2
          simp at h h2 ⊢
          omega

/-- Equation form of `parseShapes_toks_le` for rewriting with a split
hypothesis. -/
theorem parseShapes_toks_le_eq (id : String) (n : Nat) (sc : PlanningScene)
    (st : SStream) (res : Bool × PlanningScene × SStream)
    (h : parseShapes id n sc st = res) :
    res.2.2.toks.length ≤ st.toks.length :=
  h ▸ parseShapes_toks_le id n sc st

/-- Equation form of `parseSubframes_toks_le`. -/
theorem parseSubframes_toks_le_eq (n : Nat) (acc : List (String × Pose))
    (st : SStream) (res : Bool × List (String × Pose) × SStream)
    (h : parseSubframes n acc st = res) :
    res.2.2.toks.length ≤ st.toks.length :=
  h ▸ parseSubframes_toks_le n acc st

/-- A continuing loop iteration consumes at least one whole line, so the
line-count fuel of `loadGeometryFromStream` never runs out. -/
theorem parseRecord_toks_lt (sc : PlanningScene) (off : Pose) (un : Bool)
    (st : SStream) :
    ∀ res : Option Bool × PlanningScene × SStream,
      parseRecord sc off un st = res → res.1 = none →
      res.2.2.toks.length < st.toks.length := by
  unfold parseRecord
  dsimp only
  have hw := readWord_toks_le st
  split
  · intro res hres hnone
    rw [← hres] at hnone
    exact absurd hnone (by simp)
  · rename_i w st' heq
    rw [heq] at hw
    simp only [] at hw
    by_cases hstar : wordStr w = "*"
    · rw [if_pos hstar]
      split
      · intro res hres hnone
        rw [← hres] at hnone
        exact absurd hnone (by simp)
      · rename_i oid st2 heq2
        have hl := readLine_toks_lt st' oid st2 heq2
        split
        · intro res hres hnone
          rw [← hres] at hnone
          exact absurd hnone (by simp)
        · rename_i p st3 heq3
          have hp : st3.toks.length ≤ st2.toks.length := by
            by_cases hun : un = true
            · rw [hun] at heq3
              simp only [if_true, ite_true] at heq3
              have := readPose_toks_le st2
              rw [heq3] at this
              simpa using this
            · have hun' : un = false := by
                cases un
                · rfl
                · exact absurd rfl hun
              rw [hun'] at heq3
              simp only [Bool.false_eq_true, if_false, ite_false] at heq3
              injection heq3 with h1 h2
              rw [← h2]
          split
          · intro res hres hnone
            rw [← hres] at hnone
            exact absurd hnone (by simp)
          · rename_i sc2 st5 heq5
            have hnat := readNatTok_toks_le st3
            have hs := parseShapes_toks_le_eq _ _ _ _ _ heq5
            simp only [] at hs
            by_cases hun : un = true
            · rw [hun]
              simp only [if_true, ite_true]
              split
              · intro res hres hnone
                rw [← hres] at hnone
                exact absurd hnone (by simp)
              · rename_i subs st7 heq7
                have hnat2 := readNatTok_toks_le st5
                have hsub := parseSubframes_toks_le_eq _ _ _ _ heq7
                simp only [] at hsub
                intro res hres hnone
                rw [← hres]
                simp only []
                omega
            · have hun' : un = false := by
                cases un
                · rfl
                · exact absurd rfl hun
              rw [hun']
              simp only [Bool.false_eq_true, if_false, ite_false]
              intro res hres hnone
              rw [← hres]
              simp only []
              omega
    · rw [if_neg hstar]
      by_cases hdot : wordStr w = "."
      · rw [if_pos hdot]
        intro res hres hnone
        rw [← hres] at hnone
        exact absurd hnone (by simp)
      · rw [if_neg hdot]
        intro res hres hnone
        rw [← hres] at hnone
        exact absurd hnone (by simp)

/-- The loop result does not depend on the fuel once the fuel exceeds the
number of remaining lines: the fuelled loop is the C++ unbounded loop. -/
theorem loadLoopF_fuelIndep (off : Pose) (un : Bool) :
    ∀ (k : Nat) (st : SStream) (sc : PlanningScene) (f1 f2 : Nat),
      st.toks.length ≤ k → st.toks.length < f1 → st.toks.length < f2 →
      loadLoopF f1 off un st sc = loadLoopF f2 off un st sc := by
  intro k
  induction k with
  | zero =>
      intro st sc f1 f2 hk h1 h2
      obtain ⟨a, rfl⟩ : ∃ a, f1 = a + 1 := ⟨f1 - 1, by omega⟩
      obtain ⟨b, rfl⟩ : ∃ b, f2 = b + 1 := ⟨f2 - 1, by omega⟩
      simp only [loadLoopF]
      rcases hp : parseRecord sc off un st with ⟨o, sc', st'⟩
      cases o with
      | some bv => simp
      | none =>
          have := parseRecord_toks_lt sc off un st (none, sc', st') hp rfl
          simp only [] at this
          omega
  | succ k ih =>
      intro st sc f1 f2 hk h1 h2
      obtain ⟨a, rfl⟩ : ∃ a, f1 = a + 1 := ⟨f1 - 1, by omega⟩
      obtain ⟨b, rfl⟩ : ∃ b, f2 = b + 1 := ⟨f2 - 1, by omega⟩
      simp only [loadLoopF]
      rcases hp : parseRecord sc off un st with ⟨o, sc', st'⟩
      cases o with
      | some bv => simp
      | none =>
          have hlt := parseRecord_toks_lt sc off un st (none, sc', st') hp
            rfl
          simp only [] at hlt
          exact ih st' sc' a b (by omega) (by omega) (by omega)

/-- The particular fuel `loadGeometryFromStream` supplies is as good as any
larger one. -/
theorem loadLoopF_fuel_sufficient (off : Pose) (un : Bool) (st : SStream)
    (sc : PlanningScene) (f : Nat) (h : st.toks.length < f) :
    loadLoopF f off un st sc =
      loadLoopF (st.toks.length + 1) off un st sc :=
  loadLoopF_fuelIndep off un st.toks.length st sc f (st.toks.length + 1)
    (le_refl _) h (by omega)

end FuelAdequacy

end MoveitScene
